import Mathlib

/-!
# Verification of the meeting-recording lifecycle of the Gia desktop app

Shallow embedding of the recording-lifecycle logic of `src/main.js`
(together with the pieces of `src/utils/api.js` and `src/utils/auth.js` it
calls) of the `gia-desktop-recording` repository.

The module-level mutable variables of `src/main.js` become an `AppState`
record; each IPC/SDK event handler becomes a function `AppState → … →
AppState × List Out`, where `Out` records the externally visible calls the
handler makes (engine calls, backend calls, dialogs, the consent popup).
Results of awaited external collaborators (the identity provider, the
backend HTTP API, the Recall engine) are passed in as explicit arguments,
so a handler is a pure function of the state and of the collaborators'
answers.

Two semantic layers are built:

* a *sequential* layer, where every `async` handler runs to completion
  atomically (this is the behaviour when no second event interleaves at a
  suspension point), used for the functional-correctness and
  error-handling claims; and
* a *concurrent* layer (`CState`/`cstep`), where each start trigger is cut
  into its atomic segments between `await` suspension points and an
  adversarial scheduler interleaves segments of several in-flight triggers
  with user/engine events, used for the claims about concurrent start
  triggers and the `recordingStarted` latch.
-/

deriving instance DecidableEq for Except

namespace Gia

/-- One meeting session: the shape of the `currentMeetingInfo` object of
`src/main.js` (see its creation in the `meeting-detected` listener).
Identifiers are modelled as `Nat` (`0` plays the role of a JS-falsy id)
and timestamps as `Nat` milliseconds. -/
structure MeetingInfo where
  windowId : Nat
  meetingUrl : Option String
  uploadToken : Option String
  recordingId : Option String
  sdkUploadId : Option String
  lastRegisteredMeetingUrl : Option String
  lastRegisterAttemptUrl : Option String
  lastRegisterAttemptAt : Nat
deriving DecidableEq, Repr

/-- The module-level mutable state of `src/main.js` that the recording
lifecycle reads and writes: the capture flags, the consent flags, the
current session pointer and the suppression set
(`suppressedMeetingWindowIds`). Window/tray/logging state is plumbing and
is not modelled. -/
structure AppState where
  isRecording : Bool
  isPaused : Bool
  userWantsToRecord : Bool
  recordingStarted : Bool
  currentMeetingInfo : Option MeetingInfo
  suppressedMeetingWindowIds : Finset Nat
deriving DecidableEq

/-- Initial values of the module-level variables of `src/main.js`. -/
def initialAppState : AppState :=
  { isRecording := false
    isPaused := false
    userWantsToRecord := false
    recordingStarted := false
    currentMeetingInfo := none
    suppressedMeetingWindowIds := ∅ }

/-- The fresh session object built by the `meeting-detected` listener. -/
def freshMeetingInfo (windowId : Nat) : MeetingInfo :=
  { windowId := windowId
    meetingUrl := none
    uploadToken := none
    recordingId := none
    sdkUploadId := none
    lastRegisteredMeetingUrl := none
    lastRegisterAttemptUrl := none
    lastRegisterAttemptAt := 0 }

/-- `setCaptureState` of `src/main.js`: the only writer of `isRecording`
and `isPaused`. It coerces the arguments to booleans and then forces
`isPaused` to `false` whenever `isRecording` is `false`. -/
def setCaptureState (recording paused : Bool) (st : AppState) : AppState :=
  let st1 := { st with isRecording := recording, isPaused := paused }
  if !st1.isRecording then { st1 with isPaused := false } else st1

/-- `suppressMeetingPopupForWindow` of `src/main.js`: adds a truthy
`windowId` to the suppression set. -/
def suppressMeetingPopupForWindow (windowId : Option Nat) (st : AppState) : AppState :=
  match windowId with
  | some w =>
    if w ≠ 0 then
      { st with suppressedMeetingWindowIds := insert w st.suppressedMeetingWindowIds }
    else st
  | none => st

/-- `clearMeetingPopupSuppression` of `src/main.js`: removes a truthy
`windowId` from the suppression set when present. -/
def clearMeetingPopupSuppression (windowId : Option Nat) (st : AppState) : AppState :=
  match windowId with
  | some w =>
    if w ≠ 0 ∧ w ∈ st.suppressedMeetingWindowIds then
      { st with suppressedMeetingWindowIds := st.suppressedMeetingWindowIds.erase w }
    else st
  | none => st

/-- A thrown JS `Error`, keeping the two fields the lifecycle code reads:
an optional structured `status` and the `message` string. (The `Api` class
in `src/utils/api.js` throws plain `Error`s without a `status` field.) -/
structure JsError where
  status : Option Nat
  message : String
deriving DecidableEq, Repr

/-- Numeric value of a digit character. -/
def digitVal (c : Char) : Nat := c.toNat - 48

/-- Left-to-right scan for the first occurrence of the pattern
`\((\d{3})\)` — an opening parenthesis, exactly three digits, a closing
parenthesis — returning the three-digit number. This is the regex used by
`showUploadTokenErrorDialog` in `src/main.js` to recover an HTTP status
from an error message. -/
def parenStatusScan : List Char → Option Nat
  | '(' :: a :: b :: c :: ')' :: rest =>
    if a.isDigit && b.isDigit && c.isDigit then
      some (100 * digitVal a + 10 * digitVal b + digitVal c)
    else parenStatusScan (a :: b :: c :: ')' :: rest)
  | _ :: rest => parenStatusScan rest
  | [] => none

def extractParenStatus (msg : String) : Option Nat := parenStatusScan msg.data

/-- The entitlement-specific dialog text of `showUploadTokenErrorDialog`. -/
def entitlementMessage : String :=
  "Botless recordings are not enabled. Enable Botless Recordings in the platform to use this feature."

/-- The generic dialog text of `showUploadTokenErrorDialog`. -/
def genericStartFailureMessage : String :=
  "We couldn’t start the recording. Please try again. If the problem persists, please contact support."

/-- Status extraction of `showUploadTokenErrorDialog`: prefer a structured
`error.status`, else parse `(\d{3})` out of the message. -/
def uploadTokenDialogStatus (e : JsError) : Option Nat :=
  match e.status with
  | some n => some n
  | none => extractParenStatus e.message

/-- The `message` field `showUploadTokenErrorDialog` displays: the
entitlement text iff the recovered status is 403, the generic text
otherwise. -/
def uploadTokenErrorDialogMessage (e : JsError) : String :=
  if uploadTokenDialogStatus e = some 403 then entitlementMessage
  else genericStartFailureMessage

/-- The error thrown by `Api.getUploadToken` (`src/utils/api.js`) on a
non-ok HTTP response: `Failed to get upload token (STATUS): BODY`, with no
structured `status` field. -/
def apiGetUploadTokenError (httpStatus : Nat) (body : String) : JsError :=
  { status := none
    message := "Failed to get upload token (" ++ toString httpStatus ++ "): " ++ body }

/-- The possibly-nested `uploadToken` field of the backend's upload-token
response: absent, a bare string, or an object carrying `upload_token`,
`recording_id`, `sdk_upload_id` and `sdkUploadId` sub-fields. -/
inductive UploadTokenField
  | absent
  | str (s : String)
  | obj (upload_token recording_id sdk_upload_id sdkUploadId : Option String)
deriving DecidableEq, Repr

/-- The loosely-structured JSON body returned by the upload-token
endpoint, restricted to the keys `getUploadTokenAndStoreInfo` inspects. -/
structure UploadTokenData where
  uploadToken : UploadTokenField
  upload_token : Option String
  sdk_upload_id : Option String
  sdkUploadId : Option String
deriving DecidableEq, Repr

/-- Upload-token extraction of `getUploadTokenAndStoreInfo`: try the
nested `uploadToken.upload_token`, then the flat `upload_token`, then
`uploadToken` as a bare string. -/
def extractUploadToken (d : UploadTokenData) : Option String :=
  match d.uploadToken with
  | .obj (some t) _ _ _ => some t
  | _ =>
    match d.upload_token with
    | some t => some t
    | none =>
      match d.uploadToken with
      | .str s => some s
      | _ => none

/-- Recording-id extraction: only `uploadToken.recording_id` is consulted
(`?? null` on everything else). -/
def extractRecordingId (d : UploadTokenData) : Option String :=
  match d.uploadToken with
  | .obj _ rid _ _ => rid
  | _ => none

/-- Sdk-upload-id extraction, in the source's `??`-chain order:
`uploadToken.sdk_upload_id`, then `sdk_upload_id`, then
`uploadToken.sdkUploadId`, then `sdkUploadId`. -/
def extractSdkUploadId (d : UploadTokenData) : Option String :=
  match (match d.uploadToken with | .obj _ _ sid _ => sid | _ => none) with
  | some sid => some sid
  | none =>
    match d.sdk_upload_id with
    | some sid => some sid
    | none =>
      match (match d.uploadToken with | .obj _ _ _ sid => sid | _ => none) with
      | some sid => some sid
      | none => d.sdkUploadId

/-- Externally visible effects of a handler run: calls into the engine and
the backend, dialogs, and the consent popup. -/
inductive Out
  | showPopup
  | dialog (message : String)
  | fetchUploadTokenCall
  | registerMeetingUrlCall (meetingUrl recordingId sdkUploadId : String)
  | engineStartCall (windowId : Nat) (uploadToken : String)
  | engineStopCall (windowId : Nat)
  | enginePauseCall (windowId : Nat)
  | engineResumeCall (windowId : Nat)
deriving DecidableEq, Repr

/-- Result of running (a stage of) an async handler to completion: the new
state, the external calls made, and the error it threw, if any. -/
structure StepRes where
  st : AppState
  outs : List Out
  err : Option JsError
deriving DecidableEq

def noMeetingError : JsError :=
  { status := none, message := "No meeting information available" }

/-- The `Upload token not found in response: …` error of
`getUploadTokenAndStoreInfo` (the stringified payload appended in the
source is omitted; nothing inspects it). -/
def tokenNotFoundError : JsError :=
  { status := none, message := "Upload token not found in response" }

def noUploadTokenError : JsError :=
  { status := none, message := "No upload token available" }

/-- `getUploadTokenAndStoreInfo` of `src/main.js`, with the backend's
answer to `api.getUploadToken()` passed in as `fetchResult`. The backend
is called only when `currentMeetingInfo.uploadToken` is still null; on a
successful parse the token and both ids are stored on the session; on a
fetch or parse failure the error dialog is shown and the error rethrown. -/
def getUploadTokenAndStoreInfo (st : AppState)
    (fetchResult : Except JsError UploadTokenData) : StepRes :=
  match st.currentMeetingInfo with
  | none => ⟨st, [], some noMeetingError⟩
  | some info =>
    match info.uploadToken with
    | some _ => ⟨st, [], none⟩
    | none =>
      match fetchResult with
      | .error e =>
        ⟨st, [.fetchUploadTokenCall, .dialog (uploadTokenErrorDialogMessage e)], some e⟩
      | .ok d =>
        match extractUploadToken d with
        | none =>
          ⟨st, [.fetchUploadTokenCall,
                .dialog (uploadTokenErrorDialogMessage tokenNotFoundError)],
            some tokenNotFoundError⟩
        | some tok =>
          ⟨{ st with currentMeetingInfo := some { info with
               uploadToken := some tok
               recordingId := extractRecordingId d
               sdkUploadId := extractSdkUploadId d } },
            [.fetchUploadTokenCall], none⟩

/-- Environment of one `registerCurrentMeetingUrlIfNeeded` run: the clock
value `Date.now()` returns, the answer of
`ensureAccessToken({interactive:false})` (`.error` = it threw, `.ok none`
= not authenticated), and whether `api.registerMeetingUrl` succeeds. -/
structure RegisterEnv where
  now : Nat
  accessToken : Except String (Option String)
  apiOk : Bool
deriving DecidableEq, Repr

/-- `registerCurrentMeetingUrlIfNeeded` of `src/main.js`. Early-returns
(no-ops) when there is no session, no URL, the URL is already registered,
the same URL was attempted within the last 15 s, authentication is
unavailable, or the recording/sdk-upload ids are missing; only then stamps
the attempt fields, calls the backend, and on success records
`lastRegisteredMeetingUrl`. Its own errors are caught and logged, so it
never throws. The returned list holds the backend call if one was made. -/
def registerCurrentMeetingUrlIfNeeded (st : AppState) (env : RegisterEnv) :
    AppState × List Out :=
  match st.currentMeetingInfo with
  | none => (st, [])
  | some info =>
    match info.meetingUrl with
    | none => (st, [])
    | some meetingUrl =>
      let alreadyRegistered := info.lastRegisteredMeetingUrl = some meetingUrl
      let recentlyAttemptedSameUrl :=
        info.lastRegisterAttemptUrl = some meetingUrl ∧
          env.now - info.lastRegisterAttemptAt < 15000
      if alreadyRegistered then (st, [])
      else if recentlyAttemptedSameUrl then (st, [])
      else
        match env.accessToken with
        | .error _ => (st, [])
        | .ok none => (st, [])
        | .ok (some _) =>
          match info.recordingId, info.sdkUploadId with
          | some recordingId, some sdkUploadId =>
            let info2 := { info with
              lastRegisterAttemptUrl := some meetingUrl
              lastRegisterAttemptAt := env.now }
            let info3 := { info2 with lastRegisteredMeetingUrl := some meetingUrl }
            if env.apiOk then
              ({ st with currentMeetingInfo := some info3 },
                [.registerMeetingUrlCall meetingUrl recordingId sdkUploadId])
            else
              ({ st with currentMeetingInfo := some info2 },
                [.registerMeetingUrlCall meetingUrl recordingId sdkUploadId])
          | _, _ => (st, [])

/-- Sequential repetition of `registerCurrentMeetingUrlIfNeeded`,
counting the backend calls made. -/
def registerIterCount (st : AppState) (envs : List RegisterEnv) : AppState × Nat :=
  envs.foldl
    (fun p env =>
      let r := registerCurrentMeetingUrlIfNeeded p.1 env
      (r.1, p.2 + r.2.length))
    (st, 0)

/-- `startMeetingRecording` of `src/main.js`: guarded by the
`recordingStarted` latch, which is set synchronously *before* the awaited
engine call and reset on engine failure. `engineStart` is the engine's
answer to `RecallAiSdk.startRecording`. -/
def startMeetingRecording (st : AppState) (engineStart : Except String Unit) : StepRes :=
  match st.currentMeetingInfo with
  | none => ⟨st, [], some noMeetingError⟩
  | some info =>
    if st.recordingStarted then ⟨st, [], none⟩
    else
      match info.uploadToken with
      | none => ⟨st, [], some noUploadTokenError⟩
      | some uploadToken =>
        let st1 := { st with recordingStarted := true }
        match engineStart with
        | .ok _ =>
          ⟨setCaptureState true false st1,
            [.engineStartCall info.windowId uploadToken], none⟩
        | .error m =>
          ⟨{ st1 with recordingStarted := false },
            [.engineStartCall info.windowId uploadToken],
            some { status := none, message := m }⟩

/-- Collaborator answers consumed by one sequential run of the start
sequence `startMeetingRecordingWithAuth`: the interactive
`ensureAccessToken` result, the upload-token fetch result, the
registration environment and the engine's start answer. -/
structure StartEnv where
  auth : Except String (Option String)
  fetch : Except JsError UploadTokenData
  reg : RegisterEnv
  engineStart : Except String Unit
deriving DecidableEq

/-- The `try` body of `startMeetingRecordingWithAuth`: authenticate
interactively, ensure the upload credential, register the URL, start the
engine. -/
def startSequenceAttempt (st : AppState) (env : StartEnv) : StepRes :=
  match env.auth with
  | .error m => ⟨st, [], some { status := none, message := m }⟩
  | .ok none =>
    ⟨st, [], some { status := none
                    message := "Not authenticated: no access token available" }⟩
  | .ok (some _) =>
    let r1 := getUploadTokenAndStoreInfo st env.fetch
    match r1.err with
    | some _ => r1
    | none =>
      let r2 := registerCurrentMeetingUrlIfNeeded r1.st env.reg
      let r3 := startMeetingRecording r2.1 env.engineStart
      ⟨r3.st, r1.outs ++ r2.2 ++ r3.outs, r3.err⟩

/-- `startMeetingRecordingWithAuth` of `src/main.js`, run sequentially: a
no-op when already recording; otherwise sets `userWantsToRecord`, then
runs the try body; on any failure the catch resets `userWantsToRecord` and
`recordingStarted` but *keeps* `currentMeetingInfo`, and rethrows. -/
def startMeetingRecordingWithAuth (st : AppState) (env : StartEnv) : StepRes :=
  match st.currentMeetingInfo with
  | none => ⟨st, [], some noMeetingError⟩
  | some _ =>
    if st.isRecording then ⟨st, [], none⟩
    else
      let attempt := startSequenceAttempt { st with userWantsToRecord := true } env
      match attempt.err with
      | none => attempt
      | some e =>
        ⟨{ attempt.st with userWantsToRecord := false, recordingStarted := false },
          attempt.outs, some e⟩

/-- The `meeting-popup:confirm-recording` IPC handler, run sequentially:
sets `userWantsToRecord`, runs the start sequence, and on failure resets
the consent flags *and clears `currentMeetingInfo`* before rethrowing. -/
def confirmRecordingHandler (st : AppState) (env : StartEnv) : StepRes :=
  match st.currentMeetingInfo with
  | none => ⟨st, [], some noMeetingError⟩
  | some _ =>
    let st0 := { st with userWantsToRecord := true }
    let r := startMeetingRecordingWithAuth st0 env
    match r.err with
    | none => r
    | some e =>
      ⟨{ r.st with
          userWantsToRecord := false
          recordingStarted := false
          currentMeetingInfo := none }, r.outs, some e⟩

/-- The tray `Start Recording` click handler: the start sequence with a
catch that only logs (state changes are those of the inner catch). -/
def trayStartHandler (st : AppState) (env : StartEnv) : AppState × List Out :=
  let r := startMeetingRecordingWithAuth st env
  (r.st, r.outs)

/-- `"Cannot destructure" ∈ message`, the string test
`stopMeetingRecording` uses to recognise an already-ended recording. -/
def hasCannotDestructure (m : String) : Bool :=
  let pat := "Cannot destructure".data
  let rec go : List Char → Bool
    | [] => decide (pat = [])
    | c :: rest => pat.isPrefixOf (c :: rest) || go rest
  go m.data

/-- `stopMeetingRecording` of `src/main.js`: a no-op when not recording;
with no session or a falsy `windowId` it just forces the capture state to
idle; otherwise it calls the engine, treats an error whose message
contains `"Cannot destructure"` as success, and on any other error still
forces idle before rethrowing. `engineStop` is the engine's answer. -/
def stopMeetingRecording (st : AppState) (engineStop : Except String Unit) : StepRes :=
  if !st.isRecording then ⟨st, [], none⟩
  else
    match st.currentMeetingInfo with
    | none => ⟨setCaptureState false false st, [], none⟩
    | some info =>
      if info.windowId = 0 then ⟨setCaptureState false false st, [], none⟩
      else
        match engineStop with
        | .ok _ =>
          ⟨setCaptureState false false st, [.engineStopCall info.windowId], none⟩
        | .error m =>
          if hasCannotDestructure m then
            ⟨setCaptureState false false st, [.engineStopCall info.windowId], none⟩
          else
            ⟨setCaptureState false false st, [.engineStopCall info.windowId],
              some { status := none, message := m }⟩

/-- The `meeting-popup:decline-recording` IPC handler: suppress the
current window, reset both consent flags, close the popup. (It neither
stops the engine nor clears `currentMeetingInfo`.) -/
def declineRecordingHandler (st : AppState) : AppState :=
  let windowId := st.currentMeetingInfo.map (·.windowId)
  let st1 := suppressMeetingPopupForWindow windowId st
  { st1 with userWantsToRecord := false, recordingStarted := false }

/-- The tray `Stop Recording` click handler: suppress the current window,
attempt the stop sequence (errors only logged), and in a `finally` block
reset the consent flags and clear `currentMeetingInfo`. -/
def trayStopHandler (st : AppState) (engineStop : Except String Unit) :
    AppState × List Out :=
  let windowId := st.currentMeetingInfo.map (·.windowId)
  let st1 := suppressMeetingPopupForWindow windowId st
  let r := stopMeetingRecording st1 engineStop
  ({ r.st with
      userWantsToRecord := false
      recordingStarted := false
      currentMeetingInfo := none }, r.outs)

/-- The `meeting-popup:end-recording` IPC handler: like the tray stop but
a no-op when not recording. -/
def popupEndRecordingHandler (st : AppState) (engineStop : Except String Unit) :
    AppState × List Out :=
  if !st.isRecording then (st, [])
  else
    let windowId := st.currentMeetingInfo.map (·.windowId)
    let st1 := suppressMeetingPopupForWindow windowId st
    let r := stopMeetingRecording st1 engineStop
    ({ r.st with
        userWantsToRecord := false
        recordingStarted := false
        currentMeetingInfo := none }, r.outs)

/-- `pauseMeetingRecording` of `src/main.js` (engine answer passed in; a
missing session throws, which every caller catches and logs, so it is a
state no-op here). -/
def pauseMeetingRecording (st : AppState) (enginePause : Except String Unit) :
    AppState × List Out :=
  if !st.isRecording then (st, [])
  else if st.isPaused then (st, [])
  else
    match st.currentMeetingInfo with
    | none => (st, [])
    | some info =>
      if info.windowId = 0 then (st, [])
      else
        match enginePause with
        | .ok _ => (setCaptureState true true st, [.enginePauseCall info.windowId])
        | .error _ => (st, [.enginePauseCall info.windowId])

/-- `resumeMeetingRecording` of `src/main.js`. -/
def resumeMeetingRecording (st : AppState) (engineResume : Except String Unit) :
    AppState × List Out :=
  if !st.isRecording then (st, [])
  else if !st.isPaused then (st, [])
  else
    match st.currentMeetingInfo with
    | none => (st, [])
    | some info =>
      if info.windowId = 0 then (st, [])
      else
        match engineResume with
        | .ok _ => (setCaptureState true false st, [.engineResumeCall info.windowId])
        | .error _ => (st, [.engineResumeCall info.windowId])

/-- The `meeting-detected` listener of `src/main.js`: ignore suppressed
windows, the `slack` platform and detections while recording; otherwise
reset the consent flags, install a fresh session and show the consent
popup. -/
def meetingDetectedHandler (windowId : Nat) (platform : String) (st : AppState) :
    AppState × List Out :=
  if windowId ∈ st.suppressedMeetingWindowIds then (st, [])
  else if platform = "slack" then (st, [])
  else if st.isRecording then (st, [])
  else
    ({ st with
        userWantsToRecord := false
        recordingStarted := false
        currentMeetingInfo := some (freshMeetingInfo windowId) }, [.showPopup])

/-- The `meeting-updated` listener of `src/main.js`: ignore events with no
URL, no current session, a falsy window id or a mismatched window id;
otherwise store the latest URL, and only when the user has confirmed run
the registrar. -/
def meetingUpdatedHandler (windowId : Nat) (url : Option String) (env : RegisterEnv)
    (st : AppState) : AppState × List Out :=
  match url with
  | none => (st, [])
  | some u =>
    match st.currentMeetingInfo with
    | none => (st, [])
    | some info =>
      if windowId = 0 then (st, [])
      else if info.windowId ≠ windowId then (st, [])
      else
        let st1 := { st with currentMeetingInfo := some { info with meetingUrl := some u } }
        if !st1.userWantsToRecord then (st1, [])
        else registerCurrentMeetingUrlIfNeeded st1 env

/-- The `sdk-state-change` listener of `src/main.js`: `"recording"` forces
the capture state to recording; `"idle"` while locally paused is kept as
paused; a genuine `"idle"` forces idle, clears the suppression entry of
the *current* session's window and clears all meeting state. -/
def sdkStateChangeHandler (code : String) (st : AppState) : AppState :=
  if code = "recording" then
    if !st.isRecording || st.isPaused then setCaptureState true false st else st
  else if code = "idle" then
    if st.isPaused then setCaptureState true true st
    else
      let st1 := setCaptureState false false st
      let st2 := clearMeetingPopupSuppression (st1.currentMeetingInfo.map (·.windowId)) st1
      { st2 with
          userWantsToRecord := false
          recordingStarted := false
          currentMeetingInfo := none }
  else st

/-- The `recording-ended` listener of `src/main.js`: force idle, clear the
suppression entry for `evt.window?.id || currentMeetingInfo?.windowId`,
and clear all meeting state. -/
def recordingEndedHandler (evtWindowId : Option Nat) (st : AppState) : AppState :=
  let st1 := setCaptureState false false st
  let ended : Option Nat :=
    match evtWindowId with
    | some w => if w ≠ 0 then some w else st1.currentMeetingInfo.map (·.windowId)
    | none => st1.currentMeetingInfo.map (·.windowId)
  let st2 := clearMeetingPopupSuppression ended st1
  { st2 with
      userWantsToRecord := false
      recordingStarted := false
      currentMeetingInfo := none }

/-- The events the controller serialises, each carrying the collaborator
answers its sequential run consumes. -/
inductive Ev
  | meetingDetected (windowId : Nat) (platform : String)
  | meetingUpdated (windowId : Nat) (url : Option String) (env : RegisterEnv)
  | confirmRecording (env : StartEnv)
  | declineRecording
  | trayStart (env : StartEnv)
  | trayStop (engineStop : Except String Unit)
  | popupEndRecording (engineStop : Except String Unit)
  | trayTogglePause (engine : Except String Unit)
  | sdkStateChange (code : String)
  | recordingEnded (windowId : Option Nat)
deriving DecidableEq

/-- One sequential (atomic) event-handler run. -/
def handleEvent (st : AppState) : Ev → AppState × List Out
  | .meetingDetected w p => meetingDetectedHandler w p st
  | .meetingUpdated w u env => meetingUpdatedHandler w u env st
  | .confirmRecording env =>
    let r := confirmRecordingHandler st env
    (r.st, r.outs)
  | .declineRecording => (declineRecordingHandler st, [])
  | .trayStart env => trayStartHandler st env
  | .trayStop e => trayStopHandler st e
  | .popupEndRecording e => popupEndRecordingHandler st e
  | .trayTogglePause e =>
    if st.isPaused then resumeMeetingRecording st e else pauseMeetingRecording st e
  | .sdkStateChange c => (sdkStateChangeHandler c st, [])
  | .recordingEnded w => (recordingEndedHandler w st, [])

/-- Run a list of events sequentially. -/
def runEvents (st : AppState) (evs : List Ev) : AppState :=
  evs.foldl (fun s e => (handleEvent s e).1) st

/-! ## The credential provider (`src/utils/auth.js` + `ensureAccessToken`) -/

/-- The stored token record of `src/utils/auth.js`, restricted to the
fields its control flow reads (the identity-provider configuration fields
it merely copies along are omitted). -/
structure StoredTokens where
  access_token : Option String
  expires_at : Option Nat
  refresh_token : Option String
deriving DecidableEq, Repr

/-- `getStoredAccessToken` of `src/utils/auth.js`. `storage` is the
content of the token file (`none` = unreadable/absent), `now` the clock,
and `refreshResult` the identity provider's answer to a refresh attempt
(already normalised, as `normalizeTokens` would). Returns the new storage
content and either the tokens (or `none` = not authenticated) or the
propagated refresh error. On refresh failure the storage is cleared and
the error rethrown. -/
def getStoredAccessToken (allowRefresh : Bool) (storage : Option StoredTokens)
    (now : Nat) (refreshResult : Except String StoredTokens) :
    Option StoredTokens × Except String (Option StoredTokens) :=
  match storage with
  | none => (storage, .ok none)
  | some stored =>
    match stored.access_token, stored.expires_at with
    | some _, some expiresAt =>
      if now < expiresAt then (storage, .ok (some stored))
      else if !allowRefresh then (storage, .ok none)
      else
        match stored.refresh_token with
        | none => (storage, .ok none)
        | some refreshTok =>
          match refreshResult with
          | .ok refreshed =>
            let next := { refreshed with refresh_token :=
              match refreshed.refresh_token with
              | none => some refreshTok
              | some r => some r }
            (some next, .ok (some next))
          | .error e => (none, .error e)
    | _, _ => (storage, .ok none)

/-- `ensureAccessToken({interactive:false})` of `src/main.js`: calls
`getStoredAccessToken({allowRefresh:true})` (an exception from it
propagates uncaught), returns the access token when one came back, and
`null` otherwise since no UI may be opened. -/
def ensureAccessTokenNonInteractive (storage : Option StoredTokens) (now : Nat)
    (refreshResult : Except String StoredTokens) :
    Option StoredTokens × Except String (Option String) :=
  match getStoredAccessToken true storage now refreshResult with
  | (storage2, .error e) => (storage2, .error e)
  | (storage2, .ok stored) =>
    match stored with
    | some tokens =>
      match tokens.access_token with
      | some accessToken => (storage2, .ok (some accessToken))
      | none => (storage2, .ok none)
    | none => (storage2, .ok none)

/-! ## The concurrent start-trigger layer

Each invocation of `startMeetingRecordingWithAuth` suspends at its
`await`s; between two suspension points it runs atomically on the single
event loop. A task (`CTask`) records where an in-flight trigger is
suspended; the scheduler (`CAction`) chooses which task to resume with
which collaborator answer, or fires a user/engine event. The interior of
`registerCurrentMeetingUrlIfNeeded` is collapsed into one suspension
(action `regDone`), sound for the properties proved here since it never
touches the capture/consent flags, the latch, the upload token, or the
call counters; when the session has no URL yet the registrar returns
synchronously and no suspension is inserted, as in the source. -/

/-- Suspension points of one start trigger: awaiting the interactive
`ensureAccessToken`, awaiting `api.getUploadToken`, inside the registrar,
or awaiting `RecallAiSdk.startRecording`. -/
inductive Phase
  | authWait
  | fetchWait
  | regWait
  | startWait
deriving DecidableEq, Repr

/-- An in-flight start trigger: its suspension point, and whether it was
spawned by the popup confirm handler (whose catch also clears
`currentMeetingInfo`) or by the tray handler (whose catch only logs). -/
structure CTask where
  phase : Phase
  fromPopup : Bool
deriving DecidableEq, Repr

/-- State of the concurrent layer: the module state, counters of the
engine `startRecording` and backend `getUploadToken` calls issued so far,
and the multiset of in-flight trigger tasks. -/
structure CState where
  app : AppState
  startCalls : Nat
  fetchCalls : Nat
  tasks : List CTask
deriving DecidableEq

/-- The catch of a failed trigger: `startMeetingRecordingWithAuth` resets
the consent flags; the popup confirm handler's catch additionally clears
`currentMeetingInfo`. -/
def triggerCatch (fromPopup : Bool) (st : AppState) : AppState :=
  let st1 := { st with userWantsToRecord := false, recordingStarted := false }
  if fromPopup then { st1 with currentMeetingInfo := none } else st1

/-- The synchronous segment of `startMeetingRecording` up to the engine
`await`: re-read the session, skip when the `recordingStarted` latch is
already set, throw when the upload token is missing, else set the latch
and issue the engine call (the task then waits for the engine's answer). -/
def cStartSegment (fromPopup : Bool) (s : CState) : CState :=
  match s.app.currentMeetingInfo with
  | none => { s with app := triggerCatch fromPopup s.app }
  | some info =>
    if s.app.recordingStarted then s
    else
      match info.uploadToken with
      | none => { s with app := triggerCatch fromPopup s.app }
      | some _ =>
        { s with
            app := { s.app with recordingStarted := true }
            startCalls := s.startCalls + 1
            tasks := ⟨.startWait, fromPopup⟩ :: s.tasks }

/-- Continuation once the upload token is ensured: the registrar returns
synchronously when the session has no URL (straight on to the start
segment), otherwise the trigger suspends inside the registrar. -/
def cAfterToken (fromPopup : Bool) (s : CState) : CState :=
  match s.app.currentMeetingInfo with
  | some info =>
    match info.meetingUrl with
    | some _ => { s with tasks := ⟨.regWait, fromPopup⟩ :: s.tasks }
    | none => cStartSegment fromPopup s
  | none => cStartSegment fromPopup s

/-- The scheduler's answer when resuming a suspended task. -/
inductive ResumeOutcome
  | authOk (token : String)
  | authNone
  | authThrow
  | fetchOk (d : UploadTokenData)
  | fetchErr
  | regDone (env : RegisterEnv)
  | startOk
  | startFail
deriving DecidableEq, Repr

/-- Which answers fit which suspension point. -/
def compatible : Phase → ResumeOutcome → Bool
  | .authWait, .authOk _ => true
  | .authWait, .authNone => true
  | .authWait, .authThrow => true
  | .fetchWait, .fetchOk _ => true
  | .fetchWait, .fetchErr => true
  | .regWait, .regDone _ => true
  | .startWait, .startOk => true
  | .startWait, .startFail => true
  | _, _ => false

/-- Resume task `t` (already removed from `s.tasks`) with answer `o`: the
next atomic segment of `startMeetingRecordingWithAuth` /
`getUploadTokenAndStoreInfo` / `startMeetingRecording`, re-reading the
shared state exactly as the source does after an `await`. -/
def cresume (s : CState) (t : CTask) (o : ResumeOutcome) : CState :=
  match t.phase, o with
  | .authWait, .authOk _ =>
    match s.app.currentMeetingInfo with
    | none => { s with app := triggerCatch t.fromPopup s.app }
    | some info =>
      match info.uploadToken with
      | some _ => cAfterToken t.fromPopup s
      | none =>
        { s with
            fetchCalls := s.fetchCalls + 1
            tasks := ⟨.fetchWait, t.fromPopup⟩ :: s.tasks }
  | .authWait, .authNone => { s with app := triggerCatch t.fromPopup s.app }
  | .authWait, .authThrow => { s with app := triggerCatch t.fromPopup s.app }
  | .fetchWait, .fetchOk d =>
    match s.app.currentMeetingInfo with
    | none => { s with app := triggerCatch t.fromPopup s.app }
    | some info =>
      match extractUploadToken d with
      | none => { s with app := triggerCatch t.fromPopup s.app }
      | some tok =>
        cAfterToken t.fromPopup
          { s with app := { s.app with currentMeetingInfo := some { info with
              uploadToken := some tok
              recordingId := extractRecordingId d
              sdkUploadId := extractSdkUploadId d } } }
  | .fetchWait, .fetchErr => { s with app := triggerCatch t.fromPopup s.app }
  | .regWait, .regDone env =>
    cStartSegment t.fromPopup
      { s with app := (registerCurrentMeetingUrlIfNeeded s.app env).1 }
  | .startWait, .startOk => { s with app := setCaptureState true false s.app }
  | .startWait, .startFail =>
    { s with app := triggerCatch t.fromPopup { s.app with recordingStarted := false } }
  | _, _ => s

/-- Spawning a start trigger: the synchronous entry of the popup confirm
handler / the tray click up to the first `await`. With no session the
entry throws before any awaited work (no task, no state change beyond the
popup handler's early `userWantsToRecord := true`, which it only reaches
with a session); when already recording the sequence returns at once. -/
def cspawn (fromPopup : Bool) (s : CState) : CState :=
  match s.app.currentMeetingInfo with
  | none => s
  | some _ =>
    if fromPopup then
      let s1 := { s with app := { s.app with userWantsToRecord := true } }
      if s1.app.isRecording then s1
      else { s1 with tasks := ⟨.authWait, true⟩ :: s1.tasks }
    else
      if s.app.isRecording then s
      else
        { s with
            app := { s.app with userWantsToRecord := true }
            tasks := ⟨.authWait, false⟩ :: s.tasks }

/-- A scheduler action: spawn a trigger, resume a suspended trigger with a
chosen answer, or interleave a user/engine event (handled atomically,
matching the source's synchronous handlers). -/
inductive CAction
  | spawnTrigger (fromPopup : Bool)
  | resume (t : CTask) (o : ResumeOutcome)
  | decline
  | update (windowId : Nat) (url : Option String) (env : RegisterEnv)
  | detect (windowId : Nat) (platform : String)
  | sdkIdle
  | recEnded (windowId : Option Nat)
deriving DecidableEq

/-- One step of the concurrent layer. -/
def cstep (s : CState) : CAction → CState
  | .spawnTrigger b => cspawn b s
  | .resume t o =>
    if t ∈ s.tasks ∧ compatible t.phase o = true then
      cresume { s with tasks := s.tasks.erase t } t o
    else s
  | .decline => { s with app := declineRecordingHandler s.app }
  | .update w u env => { s with app := (meetingUpdatedHandler w u env s.app).1 }
  | .detect w p => { s with app := (meetingDetectedHandler w p s.app).1 }
  | .sdkIdle => { s with app := sdkStateChangeHandler "idle" s.app }
  | .recEnded w => { s with app := recordingEndedHandler w s.app }

/-- Run a schedule. -/
def crun (s : CState) (acts : List CAction) : CState := acts.foldl cstep s

/-- The state right after `meeting-detected` installed a fresh session for
`windowId`: the canonical start of one meeting window's lifecycle. -/
def cInit (windowId : Nat) : CState :=
  ⟨(meetingDetectedHandler windowId "zoom" initialAppState).1, 0, 0, []⟩

/-! ## Helper lemmas: normal forms and frame properties of the stages -/

/-- `setCaptureState` in closed form: recording becomes the first
argument, paused the conjunction of both. -/
theorem setCaptureState_eq (r p : Bool) (st : AppState) :
    setCaptureState r p st = { st with isRecording := r, isPaused := r && p } := by
  cases r <;> cases p <;> simp [setCaptureState]

/-- `getUploadTokenAndStoreInfo` either leaves the state unchanged or
stores a successfully fetched and parsed credential triple. -/
theorem getUploadToken_state_cases (st : AppState) (f : Except JsError UploadTokenData) :
    (getUploadTokenAndStoreInfo st f).st = st ∨
    ∃ info d tok, st.currentMeetingInfo = some info ∧ f = .ok d ∧
      extractUploadToken d = some tok ∧
      (getUploadTokenAndStoreInfo st f).st =
        { st with currentMeetingInfo := some { info with
            uploadToken := some tok
            recordingId := extractRecordingId d
            sdkUploadId := extractSdkUploadId d } } := by
  rcases hm : st.currentMeetingInfo with _ | info
  · left; simp [getUploadTokenAndStoreInfo, hm]
  · rcases ht : info.uploadToken with _ | tok
    · rcases f with e | d
      · left; simp [getUploadTokenAndStoreInfo, hm, ht]
      · rcases he : extractUploadToken d with _ | tok
        · left; simp [getUploadTokenAndStoreInfo, hm, ht, he]
        · right
          exact ⟨info, d, tok, rfl, rfl, he, by simp [getUploadTokenAndStoreInfo, hm, ht, he]⟩
    · left; simp [getUploadTokenAndStoreInfo, hm, ht]

/-- `registerCurrentMeetingUrlIfNeeded` either no-ops completely or stamps
the attempt fields, makes the backend call, and records the registered URL
on success. -/
theorem register_cases (st : AppState) (env : RegisterEnv) :
    registerCurrentMeetingUrlIfNeeded st env = (st, []) ∨
    ∃ info u rid sid, st.currentMeetingInfo = some info ∧ info.meetingUrl = some u ∧
      info.recordingId = some rid ∧ info.sdkUploadId = some sid ∧
      (∃ tok, env.accessToken = .ok (some tok)) ∧
      registerCurrentMeetingUrlIfNeeded st env =
        ({ st with currentMeetingInfo := some { info with
             lastRegisterAttemptUrl := some u
             lastRegisterAttemptAt := env.now
             lastRegisteredMeetingUrl :=
               if env.apiOk then some u else info.lastRegisteredMeetingUrl } },
          [.registerMeetingUrlCall u rid sid]) := by
  rcases hm : st.currentMeetingInfo with _ | info
  · left; simp [registerCurrentMeetingUrlIfNeeded, hm]
  · rcases hu : info.meetingUrl with _ | u
    · left; simp [registerCurrentMeetingUrlIfNeeded, hm, hu]
    · by_cases hreg : info.lastRegisteredMeetingUrl = some u
      · left; simp [registerCurrentMeetingUrlIfNeeded, hm, hu, hreg]
      · by_cases hatt : info.lastRegisterAttemptUrl = some u ∧
          env.now - info.lastRegisterAttemptAt < 15000
        · left; simp [registerCurrentMeetingUrlIfNeeded, hm, hu, hreg, hatt]
        · rcases htok : env.accessToken with m | otok
          · left; simp [registerCurrentMeetingUrlIfNeeded, hm, hu, hreg, hatt, htok]
          · rcases otok with _ | tok
            · left; simp [registerCurrentMeetingUrlIfNeeded, hm, hu, hreg, hatt, htok]
            · rcases hrid : info.recordingId with _ | rid
              · left; simp [registerCurrentMeetingUrlIfNeeded, hm, hu, hreg, hatt, htok, hrid]
              · rcases hsid : info.sdkUploadId with _ | sid
                · left
                  simp [registerCurrentMeetingUrlIfNeeded, hm, hu, hreg, hatt, htok, hrid, hsid]
                · right
                  refine ⟨info, u, rid, sid, rfl, hu, hrid, hsid, ⟨tok, rfl⟩, ?_⟩
                  by_cases hapi : env.apiOk <;>
                    simp [registerCurrentMeetingUrlIfNeeded, hm, hu, hreg, hatt, htok,
                      hrid, hsid, hapi]

/-- `startMeetingRecording` leaves the state unchanged, resets the latch,
or sets the latch and the capture flags. -/
theorem startMeeting_state_cases (st : AppState) (es : Except String Unit) :
    (startMeetingRecording st es).st = st ∨
    (startMeetingRecording st es).st = { st with recordingStarted := false } ∨
    (startMeetingRecording st es).st =
      setCaptureState true false { st with recordingStarted := true } := by
  rcases hm : st.currentMeetingInfo with _ | info
  · left; simp [startMeetingRecording, hm]
  · by_cases hrs : st.recordingStarted
    · left; simp [startMeetingRecording, hm, hrs]
    · rcases ht : info.uploadToken with _ | tok
      · left; simp [startMeetingRecording, hm, hrs, ht]
      · rcases es with m | u
        · right; left; simp [startMeetingRecording, hm, hrs, ht]
        · right; right; simp [startMeetingRecording, hm, hrs, ht]

/-- `stopMeetingRecording` leaves the state unchanged or forces the
capture flags to idle. -/
theorem stop_state_cases (st : AppState) (es : Except String Unit) :
    (stopMeetingRecording st es).st = st ∨
    (stopMeetingRecording st es).st = setCaptureState false false st := by
  by_cases hrec : st.isRecording
  · rcases hm : st.currentMeetingInfo with _ | info
    · right; simp [stopMeetingRecording, hrec, hm]
    · by_cases hw : info.windowId = 0
      · right; simp [stopMeetingRecording, hrec, hm, hw]
      · rcases es with m | u
        · by_cases hcd : hasCannotDestructure m <;>
            · right; simp [stopMeetingRecording, hrec, hm, hw, hcd]
        · right; simp [stopMeetingRecording, hrec, hm, hw]
  · left; simp [stopMeetingRecording, hrec]

/-- The capture-flag invariant of the claims: paused only while
recording. -/
def capInv (st : AppState) : Prop := st.isPaused = true → st.isRecording = true

theorem capInv_setCaptureState (r p : Bool) (st : AppState) :
    capInv (setCaptureState r p st) := by
  rw [setCaptureState_eq]
  intro h
  have h2 : (r && p) = true := h
  exact (Bool.and_eq_true r p).mp h2 |>.1

theorem capInv_getUploadToken (st : AppState) (f : Except JsError UploadTokenData)
    (h : capInv st) : capInv (getUploadTokenAndStoreInfo st f).st := by
  rcases getUploadToken_state_cases st f with he | ⟨_, _, _, _, _, _, he⟩ <;> rw [he] <;> exact h

theorem capInv_register (st : AppState) (env : RegisterEnv) (h : capInv st) :
    capInv (registerCurrentMeetingUrlIfNeeded st env).1 := by
  rcases register_cases st env with he | ⟨_, _, _, _, _, _, _, _, _, he⟩ <;> rw [he] <;> exact h

theorem capInv_startMeeting (st : AppState) (es : Except String Unit) (h : capInv st) :
    capInv (startMeetingRecording st es).st := by
  rcases startMeeting_state_cases st es with he | he | he <;> rw [he]
  · exact h
  · exact h
  · exact capInv_setCaptureState true false _

theorem capInv_stop (st : AppState) (es : Except String Unit) (h : capInv st) :
    capInv (stopMeetingRecording st es).st := by
  rcases stop_state_cases st es with he | he <;> rw [he]
  · exact h
  · exact capInv_setCaptureState false false _

theorem getUploadToken_supp (st : AppState) (f : Except JsError UploadTokenData) :
    (getUploadTokenAndStoreInfo st f).st.suppressedMeetingWindowIds =
      st.suppressedMeetingWindowIds := by
  rcases getUploadToken_state_cases st f with he | ⟨_, _, _, _, _, _, he⟩ <;> rw [he]

theorem register_supp (st : AppState) (env : RegisterEnv) :
    (registerCurrentMeetingUrlIfNeeded st env).1.suppressedMeetingWindowIds =
      st.suppressedMeetingWindowIds := by
  rcases register_cases st env with he | ⟨_, _, _, _, _, _, _, _, _, he⟩ <;> rw [he]

theorem startMeeting_supp (st : AppState) (es : Except String Unit) :
    (startMeetingRecording st es).st.suppressedMeetingWindowIds =
      st.suppressedMeetingWindowIds := by
  rcases startMeeting_state_cases st es with he | he | he <;> rw [he] <;>
    simp [setCaptureState_eq]

theorem stop_supp (st : AppState) (es : Except String Unit) :
    (stopMeetingRecording st es).st.suppressedMeetingWindowIds =
      st.suppressedMeetingWindowIds := by
  rcases stop_state_cases st es with he | he <;> rw [he] <;> simp [setCaptureState_eq]

/-- C4: if the stop operation runs while recording with a session carrying
a windowId, then whatever the engine answers — success, the known
"Cannot destructure" already-ended signature (masked as success), or any
other error (rethrown) — the resulting state is no longer recording. -/
theorem c4_stop_forces_idle (st : AppState) (info : MeetingInfo)
    (hrec : st.isRecording = true) (hm : st.currentMeetingInfo = some info)
    (hw : info.windowId ≠ 0) :
    (∀ es, (stopMeetingRecording st es).st.isRecording = false) ∧
    (stopMeetingRecording st (.ok ())).err = none ∧
    (∀ m, hasCannotDestructure m = true → (stopMeetingRecording st (.error m)).err = none) ∧
    (∀ m, hasCannotDestructure m = false →
      (stopMeetingRecording st (.error m)).err = some { status := none, message := m }) := by
  refine ⟨?_, ?_, ?_, ?_⟩
  · intro es
    rcases es with m | u
    · by_cases hcd : hasCannotDestructure m <;>
        simp [stopMeetingRecording, hrec, hm, hw, hcd, setCaptureState_eq]
    · simp [stopMeetingRecording, hrec, hm, hw, setCaptureState_eq]
  · simp [stopMeetingRecording, hrec, hm, hw]
  · intro m hcd
    simp [stopMeetingRecording, hrec, hm, hw, hcd]
  · intro m hcd
    simp [stopMeetingRecording, hrec, hm, hw, hcd]

theorem c4_stop_forces_idle_witness :
    (∀ es, (stopMeetingRecording ⟨true, false, true, true, some (freshMeetingInfo 3), ∅⟩
        es).st.isRecording = false) ∧
    (stopMeetingRecording ⟨true, false, true, true, some (freshMeetingInfo 3), ∅⟩
        (.ok ())).err = none ∧
    (∀ m, hasCannotDestructure m = true →
      (stopMeetingRecording ⟨true, false, true, true, some (freshMeetingInfo 3), ∅⟩
        (.error m)).err = none) ∧
    (∀ m, hasCannotDestructure m = false →
      (stopMeetingRecording ⟨true, false, true, true, some (freshMeetingInfo 3), ∅⟩
        (.error m)).err = some { status := none, message := m }) :=
  c4_stop_forces_idle ⟨true, false, true, true, some (freshMeetingInfo 3), ∅⟩
    (freshMeetingInfo 3) rfl rfl (by decide)

theorem suppress_currentMeetingInfo (o : Option Nat) (st : AppState) :
    (suppressMeetingPopupForWindow o st).currentMeetingInfo = st.currentMeetingInfo := by
  rcases o with _ | w
  · rfl
  · simp only [suppressMeetingPopupForWindow]
    split <;> rfl

theorem suppress_isRecording (o : Option Nat) (st : AppState) :
    (suppressMeetingPopupForWindow o st).isRecording = st.isRecording := by
  rcases o with _ | w
  · rfl
  · simp only [suppressMeetingPopupForWindow]
    split <;> rfl

theorem suppress_isPaused (o : Option Nat) (st : AppState) :
    (suppressMeetingPopupForWindow o st).isPaused = st.isPaused := by
  rcases o with _ | w
  · rfl
  · simp only [suppressMeetingPopupForWindow]
    split <;> rfl

theorem suppress_mem_self (w : Nat) (st : AppState) (hw : w ≠ 0) :
    w ∈ (suppressMeetingPopupForWindow (some w) st).suppressedMeetingWindowIds := by
  simp [suppressMeetingPopupForWindow, hw]

theorem suppress_mem_mono (o : Option Nat) (st : AppState) (w : Nat)
    (h : w ∈ st.suppressedMeetingWindowIds) :
    w ∈ (suppressMeetingPopupForWindow o st).suppressedMeetingWindowIds := by
  rcases o with _ | v
  · exact h
  · simp only [suppressMeetingPopupForWindow]
    split
    · exact Finset.mem_insert_of_mem h
    · exact h

theorem stop_outs (st : AppState) (es : Except String Unit) (info : MeetingInfo)
    (hrec : st.isRecording = true) (hm : st.currentMeetingInfo = some info)
    (hw : info.windowId ≠ 0) :
    (stopMeetingRecording st es).outs = [.engineStopCall info.windowId] := by
  rcases es with m | u
  · by_cases hcd : hasCannotDestructure m <;>
      simp [stopMeetingRecording, hrec, hm, hw, hcd]
  · simp [stopMeetingRecording, hrec, hm, hw]

/-! ## C3 / C7: the meeting registrar -/

/-- A fresh session that knows its URL but has no credentials yet (as
after `meeting-detected` followed by `meeting-updated`, before any
fetch). -/
def urlOnlyInfo (w : Nat) (u : String) : MeetingInfo :=
  { freshMeetingInfo w with meetingUrl := some u }

/-- A fresh session carrying URL, recording id and sdk upload id (as
after the upload-token fetch stored the ids). -/
def readyInfo (w : Nat) (u rid sid : String) : MeetingInfo :=
  { urlOnlyInfo w u with recordingId := some rid, sdkUploadId := some sid }

/-- `readyInfo` after one successful registration of `u` at time `now`. -/
def registeredInfo (w : Nat) (u rid sid : String) (now : Nat) : MeetingInfo :=
  { readyInfo w u rid sid with
      lastRegisterAttemptUrl := some u
      lastRegisterAttemptAt := now
      lastRegisteredMeetingUrl := some u }

def registerUrlOnlyState (w : Nat) (u : String) : AppState :=
  { initialAppState with currentMeetingInfo := some (urlOnlyInfo w u) }

def registerReadyState (w : Nat) (u rid sid : String) : AppState :=
  { initialAppState with currentMeetingInfo := some (readyInfo w u rid sid) }

theorem register_noop_of_registered (st : AppState) (env : RegisterEnv)
    (info : MeetingInfo) (u : String) (hm : st.currentMeetingInfo = some info)
    (hu : info.meetingUrl = some u) (hr : info.lastRegisteredMeetingUrl = some u) :
    registerCurrentMeetingUrlIfNeeded st env = (st, []) := by
  simp [registerCurrentMeetingUrlIfNeeded, hm, hu, hr]

theorem register_call_of_ready (st : AppState) (env : RegisterEnv) (info : MeetingInfo)
    (u rid sid tok : String) (hm : st.currentMeetingInfo = some info)
    (hu : info.meetingUrl = some u) (hrid : info.recordingId = some rid)
    (hsid : info.sdkUploadId = some sid)
    (hreg : info.lastRegisteredMeetingUrl ≠ some u)
    (hatt : ¬(info.lastRegisterAttemptUrl = some u ∧
      env.now - info.lastRegisterAttemptAt < 15000))
    (htok : env.accessToken = .ok (some tok)) (hapi : env.apiOk = true) :
    registerCurrentMeetingUrlIfNeeded st env =
      ({ st with currentMeetingInfo := some { info with
          lastRegisterAttemptUrl := some u
          lastRegisterAttemptAt := env.now
          lastRegisteredMeetingUrl := some u } },
        [.registerMeetingUrlCall u rid sid]) := by
  simp [registerCurrentMeetingUrlIfNeeded, hm, hu, hreg, hatt, htok, hrid, hsid, hapi]

theorem registerIter_registered (envs : List RegisterEnv) :
    ∀ (st : AppState) (n : Nat) (info : MeetingInfo) (u : String),
      st.currentMeetingInfo = some info → info.meetingUrl = some u →
      info.lastRegisteredMeetingUrl = some u →
      envs.foldl (fun p env =>
        let r := registerCurrentMeetingUrlIfNeeded p.1 env
        (r.1, p.2 + r.2.length)) (st, n) = (st, n) := by
  induction envs with
  | nil => intro st n info u _ _ _; rfl
  | cons e rest ih =>
    intro st n info u hm hu hr
    have h1 := register_noop_of_registered st e info u hm hu hr
    simp only [List.foldl_cons, h1, List.length_nil, Nat.add_zero]
    exact ih st n info u hm hu hr

/-- C3: the registrar performs no backend call unless the session's
`meetingUrl`, `recordingId` and `sdkUploadId` are all present and a
non-interactive access token is available; any missing piece makes it
return as a no-op (unchanged state, no error); and with everything
present, any number of sequential repeated calls with the same URL makes
exactly one backend call, deduped via `lastRegisteredMeetingUrl`. -/
theorem c3_register_preconditions_and_dedupe :
    (∀ st env, (registerCurrentMeetingUrlIfNeeded st env).2 ≠ [] →
      ∃ info u rid sid tok, st.currentMeetingInfo = some info ∧
        info.meetingUrl = some u ∧ info.recordingId = some rid ∧
        info.sdkUploadId = some sid ∧ env.accessToken = .ok (some tok)) ∧
    (∀ st env,
      (st.currentMeetingInfo = none ∨
       (∃ info, st.currentMeetingInfo = some info ∧
         (info.meetingUrl = none ∨ info.recordingId = none ∨ info.sdkUploadId = none)) ∨
       env.accessToken = .ok none ∨ (∃ m, env.accessToken = .error m)) →
      registerCurrentMeetingUrlIfNeeded st env = (st, [])) ∧
    (∀ w u rid sid (envs : List RegisterEnv), envs ≠ [] →
      (∀ env ∈ envs, env.apiOk = true ∧ ∃ tok, env.accessToken = .ok (some tok)) →
      (registerIterCount (registerReadyState w u rid sid) envs).2 = 1) := by
  refine ⟨?_, ?_, ?_⟩
  · intro st env hne
    rcases register_cases st env with h | ⟨info, u, rid, sid, hm, hu, hrid, hsid, htok, h⟩
    · rw [h] at hne; simp at hne
    · exact ⟨info, u, rid, sid, htok.choose, hm, hu, hrid, hsid, htok.choose_spec⟩
  · intro st env hmiss
    rcases register_cases st env with h | ⟨info, u, rid, sid, hm, hu, hrid, hsid, ⟨tok, htok⟩, h⟩
    · exact h
    · exfalso
      rcases hmiss with h0 | ⟨info2, hm2, h0 | h0 | h0⟩ | h0 | ⟨m, h0⟩
      · rw [hm] at h0; exact Option.noConfusion h0
      · rw [hm] at hm2
        cases Option.some.inj hm2
        rw [hu] at h0; exact Option.noConfusion h0
      · rw [hm] at hm2
        cases Option.some.inj hm2
        rw [hrid] at h0; exact Option.noConfusion h0
      · rw [hm] at hm2
        cases Option.some.inj hm2
        rw [hsid] at h0; exact Option.noConfusion h0
      · rw [htok] at h0
        simp at h0
      · rw [htok] at h0
        exact Except.noConfusion h0
  · intro w u rid sid envs hne hgood
    rcases envs with _ | ⟨e, rest⟩
    · exact absurd rfl hne
    · obtain ⟨hapi, tok, htok⟩ := hgood e (List.mem_cons_self e rest)
      have hstep := register_call_of_ready (registerReadyState w u rid sid) e
        (readyInfo w u rid sid) u rid sid tok rfl rfl rfl rfl
        (by simp [readyInfo, urlOnlyInfo, freshMeetingInfo])
        (by simp [readyInfo, urlOnlyInfo, freshMeetingInfo]) htok hapi
      unfold registerIterCount
      simp only [List.foldl_cons, hstep, List.length_cons, List.length_nil,
        Nat.zero_add, Nat.add_zero]
      have hiter := registerIter_registered rest
        ({ registerReadyState w u rid sid with
            currentMeetingInfo := some (registeredInfo w u rid sid e.now) }) 1
        (registeredInfo w u rid sid e.now) u rfl rfl rfl
      exact congrArg Prod.snd hiter

theorem c3_register_preconditions_and_dedupe_witness :
    (registerCurrentMeetingUrlIfNeeded (registerReadyState 7 "https://m" "r1" "s1")
        ⟨0, .ok (some "tok"), true⟩).2 ≠ [] ∧
    (registerCurrentMeetingUrlIfNeeded (registerUrlOnlyState 7 "https://m")
        ⟨0, .ok (some "tok"), true⟩ = (registerUrlOnlyState 7 "https://m", [])) ∧
    (registerIterCount (registerReadyState 7 "https://m" "r1" "s1")
        [⟨0, .ok (some "tok"), true⟩, ⟨1, .ok (some "tok"), true⟩,
         ⟨20000, .ok (some "tok"), true⟩]).2 = 1 := by
  refine ⟨?_, ?_, ?_⟩
  · decide
  · exact c3_register_preconditions_and_dedupe.2.1 (registerUrlOnlyState 7 "https://m")
      ⟨0, .ok (some "tok"), true⟩
      (Or.inr (Or.inl ⟨urlOnlyInfo 7 "https://m", rfl, Or.inr (Or.inl rfl)⟩))
  · exact c3_register_preconditions_and_dedupe.2.2 7 "https://m" "r1" "s1"
      [⟨0, .ok (some "tok"), true⟩, ⟨1, .ok (some "tok"), true⟩,
       ⟨20000, .ok (some "tok"), true⟩] (by decide)
      (by
        intro env henv
        simp only [List.mem_cons, List.not_mem_nil, or_false] at henv
        rcases henv with h | h | h <;> subst h <;> exact ⟨rfl, "tok", rfl⟩)

/-- C7: the registrar's throttle fields are written only on the path that
actually makes the backend call: every no-op path returns the state
completely unchanged, and when the call is made the fields carry the URL
and the current time. Consequently a registration attempt made while the
credential ids are still missing (e.g. triggered by an early
`meeting-updated`) leaves no trace and cannot throttle a later attempt. -/
theorem c7_register_attempt_only_when_calling :
    (∀ st env, (registerCurrentMeetingUrlIfNeeded st env).2 = [] →
      (registerCurrentMeetingUrlIfNeeded st env).1 = st) ∧
    (∀ st env info, st.currentMeetingInfo = some info →
      (registerCurrentMeetingUrlIfNeeded st env).2 ≠ [] →
      ∃ u info2, info.meetingUrl = some u ∧
        (registerCurrentMeetingUrlIfNeeded st env).1.currentMeetingInfo = some info2 ∧
        info2.lastRegisterAttemptUrl = some u ∧
        info2.lastRegisterAttemptAt = env.now) ∧
    (∀ w u rid sid env1 env2 tok2, env2.accessToken = .ok (some tok2) →
      env2.apiOk = true →
      registerCurrentMeetingUrlIfNeeded (registerUrlOnlyState w u) env1 =
        (registerUrlOnlyState w u, []) ∧
      (registerCurrentMeetingUrlIfNeeded (registerReadyState w u rid sid) env2).2 =
        [.registerMeetingUrlCall u rid sid]) := by
  refine ⟨?_, ?_, ?_⟩
  · intro st env hnil
    rcases register_cases st env with h | ⟨info, u, rid, sid, hm, hu, hrid, hsid, htok, h⟩
    · rw [h]
    · rw [h] at hnil; simp at hnil
  · intro st env info hm hne
    rcases register_cases st env with h | ⟨info1, u, rid, sid, hm1, hu, hrid, hsid, htok, h⟩
    · rw [h] at hne; simp at hne
    · rw [hm] at hm1
      cases Option.some.inj hm1
      refine ⟨u, ?_, hu, ?_, ?_, ?_⟩
      · exact { info with
          lastRegisterAttemptUrl := some u
          lastRegisterAttemptAt := env.now
          lastRegisteredMeetingUrl :=
            if env.apiOk then some u else info.lastRegisteredMeetingUrl }
      · rw [h]
      · rfl
      · rfl
  · intro w u rid sid env1 env2 tok2 htok hapi
    constructor
    · rcases ht1 : env1.accessToken with m | otok
      · simp [registerCurrentMeetingUrlIfNeeded, registerUrlOnlyState, urlOnlyInfo,
          freshMeetingInfo, ht1]
      · rcases otok with _ | tok1 <;>
          simp [registerCurrentMeetingUrlIfNeeded, registerUrlOnlyState, urlOnlyInfo,
            freshMeetingInfo, ht1]
    · rw [register_call_of_ready (registerReadyState w u rid sid) env2
        (readyInfo w u rid sid) u rid sid tok2 rfl rfl rfl rfl
        (by simp [readyInfo, urlOnlyInfo, freshMeetingInfo])
        (by simp [readyInfo, urlOnlyInfo, freshMeetingInfo]) htok hapi]

theorem c7_register_attempt_only_when_calling_witness :
    ((registerCurrentMeetingUrlIfNeeded (registerUrlOnlyState 7 "https://m")
        ⟨0, .ok (some "tok"), true⟩).2 = [] →
      (registerCurrentMeetingUrlIfNeeded (registerUrlOnlyState 7 "https://m")
        ⟨0, .ok (some "tok"), true⟩).1 = registerUrlOnlyState 7 "https://m") ∧
    (registerCurrentMeetingUrlIfNeeded (registerUrlOnlyState 7 "https://m")
        ⟨0, .ok (some "tok"), true⟩ = (registerUrlOnlyState 7 "https://m", []) ∧
      (registerCurrentMeetingUrlIfNeeded (registerReadyState 7 "https://m" "r1" "s1")
        ⟨1, .ok (some "tok"), true⟩).2 =
        [.registerMeetingUrlCall "https://m" "r1" "s1"]) :=
  ⟨c7_register_attempt_only_when_calling.1 (registerUrlOnlyState 7 "https://m")
      ⟨0, .ok (some "tok"), true⟩,
   c7_register_attempt_only_when_calling.2.2 7 "https://m" "r1" "s1"
      ⟨0, .ok (some "tok"), true⟩ ⟨1, .ok (some "tok"), true⟩ "tok" rfl rfl⟩

/-! ## C9: the upload-credential fetch -/

/-- C9 (corrected): the concurrent part of the claim is false — two start
triggers interleaved at their authentication suspension point both observe
`uploadToken = null` (the token is stored only after the fetch resolves,
there is no pre-await latch for it) and both call the backend: a concrete
schedule of the concurrent layer reaching two `api.getUploadToken`
calls in one session. -/
theorem c9_counterexample_concurrent_double_fetch :
    (crun (cInit 7)
      [.spawnTrigger true, .spawnTrigger false,
       .resume ⟨.authWait, true⟩ (.authOk "tok"),
       .resume ⟨.authWait, false⟩ (.authOk "tok")]).fetchCalls = 2 := by decide

/-- C9 (amended): sequentially, the presence check does make the fetch
idempotent — with a token already stored the handler is a complete no-op
making no backend call; with no token stored, a successful fetch makes
exactly one backend call and stores the token, so every later
non-overlapping invocation for the session is a no-op. -/
theorem c9_amended_fetch_once_sequential :
    (∀ st info tok f, st.currentMeetingInfo = some info → info.uploadToken = some tok →
      getUploadTokenAndStoreInfo st f = ⟨st, [], none⟩) ∧
    (∀ st info d tok, st.currentMeetingInfo = some info → info.uploadToken = none →
      extractUploadToken d = some tok →
      (getUploadTokenAndStoreInfo st (.ok d)).outs = [.fetchUploadTokenCall] ∧
      (∃ info2, (getUploadTokenAndStoreInfo st (.ok d)).st.currentMeetingInfo = some info2 ∧
        info2.uploadToken = some tok) ∧
      (∀ f2, getUploadTokenAndStoreInfo (getUploadTokenAndStoreInfo st (.ok d)).st f2 =
        ⟨(getUploadTokenAndStoreInfo st (.ok d)).st, [], none⟩)) := by
  constructor
  · intro st info tok f hm ht
    simp [getUploadTokenAndStoreInfo, hm, ht]
  · intro st info d tok hm ht he
    refine ⟨?_, ?_, ?_⟩
    · simp [getUploadTokenAndStoreInfo, hm, ht, he]
    · refine ⟨{ info with
          uploadToken := some tok
          recordingId := extractRecordingId d
          sdkUploadId := extractSdkUploadId d }, ?_, rfl⟩
      simp [getUploadTokenAndStoreInfo, hm, ht, he]
    · intro f2
      simp [getUploadTokenAndStoreInfo, hm, ht, he]

theorem c9_amended_fetch_once_sequential_witness :
    (getUploadTokenAndStoreInfo (registerReadyState 7 "https://m" "r1" "s1")
      (.ok ⟨.absent, some "tok2", none, none⟩)).outs = [.fetchUploadTokenCall] ∧
    (∃ info2, (getUploadTokenAndStoreInfo (registerReadyState 7 "https://m" "r1" "s1")
      (.ok ⟨.absent, some "tok2", none, none⟩)).st.currentMeetingInfo = some info2 ∧
      info2.uploadToken = some "tok2") ∧
    (∀ f2, getUploadTokenAndStoreInfo
        (getUploadTokenAndStoreInfo (registerReadyState 7 "https://m" "r1" "s1")
          (.ok ⟨.absent, some "tok2", none, none⟩)).st f2 =
      ⟨(getUploadTokenAndStoreInfo (registerReadyState 7 "https://m" "r1" "s1")
          (.ok ⟨.absent, some "tok2", none, none⟩)).st, [], none⟩) :=
  c9_amended_fetch_once_sequential.2 (registerReadyState 7 "https://m" "r1" "s1")
    (readyInfo 7 "https://m" "r1" "s1") ⟨.absent, some "tok2", none, none⟩ "tok2"
    rfl rfl rfl

/-! ## C5: the non-interactive credential provider -/

/-- C5 (counterexample): with an expired stored token whose refresh fails,
`ensureAccessToken({interactive:false})` does clear the stored credentials
but does *not* return null — `getStoredAccessToken` rethrows the refresh
error and `ensureAccessToken` does not catch it, so the call throws. -/
theorem c5_counterexample_refresh_failure_throws :
    ensureAccessTokenNonInteractive
        (some { access_token := some "a", expires_at := some 10, refresh_token := some "r" })
        20 (.error "Refresh failed: boom") =
      (none, .error "Refresh failed: boom") ∧
    (ensureAccessTokenNonInteractive
        (some { access_token := some "a", expires_at := some 10, refresh_token := some "r" })
        20 (.error "Refresh failed: boom")).2 ≠ .ok none := by
  constructor
  · decide
  · decide

/-- C5 (amended): on an expired token with a failing refresh the stored
credentials are cleared and the refresh error *propagates to the caller*;
the call returns null (without throwing) when there are no usable stored
tokens or when the expired tokens carry no refresh credential. -/
theorem c5_amended_refresh_failure_clears_and_throws :
    (∀ (stored : StoredTokens) (now : Nat) msg a exp r,
      stored.access_token = some a → stored.expires_at = some exp → ¬ now < exp →
      stored.refresh_token = some r →
      ensureAccessTokenNonInteractive (some stored) now (.error msg) =
        (none, .error msg)) ∧
    (∀ (now : Nat) rr, ensureAccessTokenNonInteractive none now rr = (none, .ok none)) ∧
    (∀ (stored : StoredTokens) (now : Nat) rr a exp,
      stored.access_token = some a → stored.expires_at = some exp → ¬ now < exp →
      stored.refresh_token = none →
      ensureAccessTokenNonInteractive (some stored) now rr = (some stored, .ok none)) := by
  refine ⟨?_, ?_, ?_⟩
  · intro stored now msg a exp r ha he hlt hr
    simp [ensureAccessTokenNonInteractive, getStoredAccessToken, ha, he, hlt, hr]
  · intro now rr
    rfl
  · intro stored now rr a exp ha he hlt hr
    simp [ensureAccessTokenNonInteractive, getStoredAccessToken, ha, he, hlt, hr]

theorem c5_amended_refresh_failure_clears_and_throws_witness :
    ensureAccessTokenNonInteractive
        (some { access_token := some "at", expires_at := some 100, refresh_token := some "rt" })
        250 (.error "Refresh failed: nope") = (none, .error "Refresh failed: nope") ∧
    ensureAccessTokenNonInteractive
        (some { access_token := some "at", expires_at := some 100, refresh_token := none })
        250 (.ok { access_token := some "x", expires_at := some 999, refresh_token := none }) =
      (some { access_token := some "at", expires_at := some 100, refresh_token := none },
        .ok none) :=
  ⟨c5_amended_refresh_failure_clears_and_throws.1
      { access_token := some "at", expires_at := some 100, refresh_token := some "rt" }
      250 "Refresh failed: nope" "at" 100 "rt" rfl rfl (by decide) rfl,
   c5_amended_refresh_failure_clears_and_throws.2.2
      { access_token := some "at", expires_at := some 100, refresh_token := none }
      250 (.ok { access_token := some "x", expires_at := some 999, refresh_token := none })
      "at" 100 rfl rfl (by decide) rfl⟩

/-! ## C2: the 403 credential-fetch scenario -/

/-- C2 (counterexample): in the scenario detect(3) → popup confirm →
upload-credential fetch fails with HTTP 403, the session is *not*
retained: the popup confirm handler's catch clears `currentMeetingInfo`
(overriding the inner start sequence, which keeps it). -/
theorem c2_counterexample_session_not_retained :
    (confirmRecordingHandler (runEvents initialAppState [.meetingDetected 3 "zoom"])
      { auth := .ok (some "token")
        fetch := .error (apiGetUploadTokenError 403 "Forbidden")
        reg := ⟨0, .ok none, true⟩
        engineStart := .ok () }).st.currentMeetingInfo = none := by decide

/-- C2 (amended): in the same scenario the user is shown the
entitlement-specific dialog text (which differs from the generic one) —
the 403 is recovered from the thrown message since `Api.getUploadToken`
attaches no structured status — consent is reset, `recordingStarted`
remains false, and (through the popup-confirm path) `currentMeetingInfo`
is cleared rather than retained; the inner start sequence alone
(`startMeetingRecordingWithAuth`, the tray path) does retain it. -/
theorem c2_amended_forbidden_scenario :
    (confirmRecordingHandler (runEvents initialAppState [.meetingDetected 3 "zoom"])
      { auth := .ok (some "token")
        fetch := .error (apiGetUploadTokenError 403 "Forbidden")
        reg := ⟨0, .ok none, true⟩
        engineStart := .ok () }).outs =
      [.fetchUploadTokenCall, .dialog entitlementMessage] ∧
    entitlementMessage ≠ genericStartFailureMessage ∧
    (confirmRecordingHandler (runEvents initialAppState [.meetingDetected 3 "zoom"])
      { auth := .ok (some "token")
        fetch := .error (apiGetUploadTokenError 403 "Forbidden")
        reg := ⟨0, .ok none, true⟩
        engineStart := .ok () }).st.userWantsToRecord = false ∧
    (confirmRecordingHandler (runEvents initialAppState [.meetingDetected 3 "zoom"])
      { auth := .ok (some "token")
        fetch := .error (apiGetUploadTokenError 403 "Forbidden")
        reg := ⟨0, .ok none, true⟩
        engineStart := .ok () }).st.recordingStarted = false ∧
    (confirmRecordingHandler (runEvents initialAppState [.meetingDetected 3 "zoom"])
      { auth := .ok (some "token")
        fetch := .error (apiGetUploadTokenError 403 "Forbidden")
        reg := ⟨0, .ok none, true⟩
        engineStart := .ok () }).st.currentMeetingInfo = none ∧
    (startMeetingRecordingWithAuth (runEvents initialAppState [.meetingDetected 3 "zoom"])
      { auth := .ok (some "token")
        fetch := .error (apiGetUploadTokenError 403 "Forbidden")
        reg := ⟨0, .ok none, true⟩
        engineStart := .ok () }).st.currentMeetingInfo =
      some (freshMeetingInfo 3) := by
  refine ⟨by decide, by decide, by decide, by decide, by decide, by decide⟩

/-! ## C6: decline versus stop -/

/-- C6 (counterexample): the popup decline handler does *not* clear the
current session — after a decline following detect(3),
`currentMeetingInfo` still holds the session. -/
theorem c6_counterexample_decline_keeps_session :
    (declineRecordingHandler
      (runEvents initialAppState [.meetingDetected 3 "zoom"])).currentMeetingInfo ≠
      none := by decide

/-- C6 (amended): both handlers add the session's window to the
suppression set and reset the consent flags; but only the tray stop
handler invokes the stop sequence (the engine stop call is issued whenever
recording is active) and clears `currentMeetingInfo`; the popup decline
handler leaves the session in place (it is cleared later by the idle or
recording-ended events). -/
theorem c6_amended_decline_vs_stop (st : AppState) (info : MeetingInfo)
    (es : Except String Unit) (hm : st.currentMeetingInfo = some info)
    (hw : info.windowId ≠ 0) :
    (info.windowId ∈ (declineRecordingHandler st).suppressedMeetingWindowIds ∧
     (declineRecordingHandler st).userWantsToRecord = false ∧
     (declineRecordingHandler st).recordingStarted = false ∧
     (declineRecordingHandler st).currentMeetingInfo = some info) ∧
    (info.windowId ∈ (trayStopHandler st es).1.suppressedMeetingWindowIds ∧
     (trayStopHandler st es).1.userWantsToRecord = false ∧
     (trayStopHandler st es).1.recordingStarted = false ∧
     (trayStopHandler st es).1.currentMeetingInfo = none ∧
     (st.isRecording = true →
       .engineStopCall info.windowId ∈ (trayStopHandler st es).2)) := by
  have hsupp1 : (suppressMeetingPopupForWindow
      (st.currentMeetingInfo.map (·.windowId)) st).currentMeetingInfo = some info := by
    rw [suppress_currentMeetingInfo]; exact hm
  have hmem : info.windowId ∈ (suppressMeetingPopupForWindow
      (st.currentMeetingInfo.map (·.windowId)) st).suppressedMeetingWindowIds := by
    rw [hm]
    exact suppress_mem_self info.windowId st hw
  constructor
  · exact ⟨hmem, rfl, rfl, hsupp1⟩
  · refine ⟨?_, rfl, rfl, rfl, ?_⟩
    · show info.windowId ∈ (stopMeetingRecording (suppressMeetingPopupForWindow
        (st.currentMeetingInfo.map (·.windowId)) st) es).st.suppressedMeetingWindowIds
      rw [stop_supp]
      exact hmem
    · intro hrec
      show Out.engineStopCall info.windowId ∈ (stopMeetingRecording
        (suppressMeetingPopupForWindow (st.currentMeetingInfo.map (·.windowId)) st) es).outs
      rw [stop_outs _ es info ?_ hsupp1 hw]
      · exact List.mem_singleton.mpr rfl
      · rw [suppress_isRecording]; exact hrec

theorem c6_amended_decline_vs_stop_witness :
    (3 ∈ (declineRecordingHandler
        (⟨true, false, true, true, some (freshMeetingInfo 3), ∅⟩ : AppState)).suppressedMeetingWindowIds ∧
     (declineRecordingHandler
        (⟨true, false, true, true, some (freshMeetingInfo 3), ∅⟩ : AppState)).userWantsToRecord = false ∧
     (declineRecordingHandler
        (⟨true, false, true, true, some (freshMeetingInfo 3), ∅⟩ : AppState)).recordingStarted = false ∧
     (declineRecordingHandler
        (⟨true, false, true, true, some (freshMeetingInfo 3), ∅⟩ : AppState)).currentMeetingInfo =
       some (freshMeetingInfo 3)) ∧
    (3 ∈ (trayStopHandler
        (⟨true, false, true, true, some (freshMeetingInfo 3), ∅⟩ : AppState) (.ok ())).1.suppressedMeetingWindowIds ∧
     (trayStopHandler
        (⟨true, false, true, true, some (freshMeetingInfo 3), ∅⟩ : AppState) (.ok ())).1.userWantsToRecord = false ∧
     (trayStopHandler
        (⟨true, false, true, true, some (freshMeetingInfo 3), ∅⟩ : AppState) (.ok ())).1.recordingStarted = false ∧
     (trayStopHandler
        (⟨true, false, true, true, some (freshMeetingInfo 3), ∅⟩ : AppState) (.ok ())).1.currentMeetingInfo = none ∧
     ((⟨true, false, true, true, some (freshMeetingInfo 3), ∅⟩ : AppState).isRecording = true →
       Out.engineStopCall 3 ∈ (trayStopHandler
        (⟨true, false, true, true, some (freshMeetingInfo 3), ∅⟩ : AppState) (.ok ())).2)) :=
  c6_amended_decline_vs_stop ⟨true, false, true, true, some (freshMeetingInfo 3), ∅⟩
    (freshMeetingInfo 3) (.ok ()) rfl (by decide)

/-! ## Frame lemmas through the composed start sequence and the event
handlers, used for the global invariants (C8 and C10). -/

theorem clear_currentMeetingInfo (o : Option Nat) (st : AppState) :
    (clearMeetingPopupSuppression o st).currentMeetingInfo = st.currentMeetingInfo := by
  rcases o with _ | w
  · rfl
  · simp only [clearMeetingPopupSuppression]
    split <;> rfl

theorem clear_isRecording (o : Option Nat) (st : AppState) :
    (clearMeetingPopupSuppression o st).isRecording = st.isRecording := by
  rcases o with _ | w
  · rfl
  · simp only [clearMeetingPopupSuppression]
    split <;> rfl

theorem clear_isPaused (o : Option Nat) (st : AppState) :
    (clearMeetingPopupSuppression o st).isPaused = st.isPaused := by
  rcases o with _ | w
  · rfl
  · simp only [clearMeetingPopupSuppression]
    split <;> rfl

theorem clear_not_mem (w : Nat) (st : AppState) (hw : w ≠ 0) :
    w ∉ (clearMeetingPopupSuppression (some w) st).suppressedMeetingWindowIds := by
  simp only [clearMeetingPopupSuppression]
  split
  · exact Finset.not_mem_erase w _
  · rename_i hcond
    intro hmem
    exact hcond ⟨hw, hmem⟩

theorem attempt_supp (st : AppState) (env : StartEnv) :
    (startSequenceAttempt st env).st.suppressedMeetingWindowIds =
      st.suppressedMeetingWindowIds := by
  rcases ha : env.auth with m | otok
  · simp [startSequenceAttempt, ha]
  · rcases otok with _ | tok
    · simp [startSequenceAttempt, ha]
    · simp only [startSequenceAttempt, ha]
      rcases he : (getUploadTokenAndStoreInfo st env.fetch).err with _ | e
      · simp only [he]
        rw [startMeeting_supp, register_supp, getUploadToken_supp]
      · simp only [he]
        rw [getUploadToken_supp]

theorem capInv_attempt (st : AppState) (env : StartEnv) (h : capInv st) :
    capInv (startSequenceAttempt st env).st := by
  rcases ha : env.auth with m | otok
  · simpa [startSequenceAttempt, ha] using h
  · rcases otok with _ | tok
    · simpa [startSequenceAttempt, ha] using h
    · simp only [startSequenceAttempt, ha]
      rcases he : (getUploadTokenAndStoreInfo st env.fetch).err with _ | e
      · simp only [he]
        exact capInv_startMeeting _ _ (capInv_register _ _ (capInv_getUploadToken _ _ h))
      · simp only [he]
        exact capInv_getUploadToken _ _ h

theorem withAuth_supp (st : AppState) (env : StartEnv) :
    (startMeetingRecordingWithAuth st env).st.suppressedMeetingWindowIds =
      st.suppressedMeetingWindowIds := by
  unfold startMeetingRecordingWithAuth
  split
  · rfl
  · split
    · rfl
    · dsimp only
      split
      · exact attempt_supp _ env
      · exact attempt_supp _ env

theorem capInv_withAuth (st : AppState) (env : StartEnv) (h : capInv st) :
    capInv (startMeetingRecordingWithAuth st env).st := by
  unfold startMeetingRecordingWithAuth
  split
  · exact h
  · split
    · exact h
    · dsimp only
      split
      · exact capInv_attempt _ env h
      · exact capInv_attempt _ env h

theorem confirm_supp (st : AppState) (env : StartEnv) :
    (confirmRecordingHandler st env).st.suppressedMeetingWindowIds =
      st.suppressedMeetingWindowIds := by
  unfold confirmRecordingHandler
  split
  · rfl
  · dsimp only
    split
    · exact withAuth_supp _ env
    · exact withAuth_supp _ env

theorem capInv_confirm (st : AppState) (env : StartEnv) (h : capInv st) :
    capInv (confirmRecordingHandler st env).st := by
  unfold confirmRecordingHandler
  split
  · exact h
  · dsimp only
    split
    · exact capInv_withAuth _ env h
    · exact capInv_withAuth _ env h

theorem capInv_suppress (o : Option Nat) (st : AppState) (h : capInv st) :
    capInv (suppressMeetingPopupForWindow o st) := by
  intro hp
  rw [suppress_isRecording]
  rw [suppress_isPaused] at hp
  exact h hp

theorem detect_supp (w : Nat) (p : String) (st : AppState) :
    (meetingDetectedHandler w p st).1.suppressedMeetingWindowIds =
      st.suppressedMeetingWindowIds := by
  unfold meetingDetectedHandler
  split_ifs <;> rfl

theorem capInv_detect (w : Nat) (p : String) (st : AppState) (h : capInv st) :
    capInv (meetingDetectedHandler w p st).1 := by
  unfold meetingDetectedHandler
  split_ifs <;> exact h

theorem update_supp (w : Nat) (u : Option String) (env : RegisterEnv) (st : AppState) :
    (meetingUpdatedHandler w u env st).1.suppressedMeetingWindowIds =
      st.suppressedMeetingWindowIds := by
  unfold meetingUpdatedHandler
  split
  · rfl
  · split
    · rfl
    · split
      · rfl
      · split
        · rfl
        · dsimp only
          split
          · rfl
          · exact register_supp _ env

theorem capInv_update (w : Nat) (u : Option String) (env : RegisterEnv) (st : AppState)
    (h : capInv st) : capInv (meetingUpdatedHandler w u env st).1 := by
  unfold meetingUpdatedHandler
  split
  · exact h
  · split
    · exact h
    · split
      · exact h
      · split
        · exact h
        · dsimp only
          split
          · exact h
          · exact capInv_register _ env h

theorem capInv_decline (st : AppState) (h : capInv st) :
    capInv (declineRecordingHandler st) := by
  exact capInv_suppress _ st h

theorem capInv_trayStop (st : AppState) (es : Except String Unit) (h : capInv st) :
    capInv (trayStopHandler st es).1 := by
  exact capInv_stop _ es (capInv_suppress _ st h)

theorem capInv_popupEnd (st : AppState) (es : Except String Unit) (h : capInv st) :
    capInv (popupEndRecordingHandler st es).1 := by
  unfold popupEndRecordingHandler
  split
  · exact h
  · exact capInv_stop _ es (capInv_suppress _ st h)

theorem pause_supp (st : AppState) (es : Except String Unit) :
    (pauseMeetingRecording st es).1.suppressedMeetingWindowIds =
      st.suppressedMeetingWindowIds := by
  unfold pauseMeetingRecording
  split
  · rfl
  · split
    · rfl
    · split
      · rfl
      · split
        · rfl
        · split
          · simp [setCaptureState_eq]
          · rfl

theorem capInv_pause (st : AppState) (es : Except String Unit) (h : capInv st) :
    capInv (pauseMeetingRecording st es).1 := by
  unfold pauseMeetingRecording
  split
  · exact h
  · split
    · exact h
    · split
      · exact h
      · split
        · exact h
        · split
          · exact capInv_setCaptureState true true st
          · exact h

theorem resume_supp (st : AppState) (es : Except String Unit) :
    (resumeMeetingRecording st es).1.suppressedMeetingWindowIds =
      st.suppressedMeetingWindowIds := by
  unfold resumeMeetingRecording
  split
  · rfl
  · split
    · rfl
    · split
      · rfl
      · split
        · rfl
        · split
          · simp [setCaptureState_eq]
          · rfl

theorem capInv_resume (st : AppState) (es : Except String Unit) (h : capInv st) :
    capInv (resumeMeetingRecording st es).1 := by
  unfold resumeMeetingRecording
  split
  · exact h
  · split
    · exact h
    · split
      · exact h
      · split
        · exact h
        · split
          · exact capInv_setCaptureState true false st
          · exact h

theorem capInv_sdk (c : String) (st : AppState) (h : capInv st) :
    capInv (sdkStateChangeHandler c st) := by
  unfold sdkStateChangeHandler
  split_ifs
  · exact capInv_setCaptureState true false st
  · exact h
  · exact capInv_setCaptureState true true st
  · intro hp
    simp only [clear_isPaused, setCaptureState_eq] at hp
    exact absurd hp (by simp)
  · exact h

theorem capInv_recEnded (w : Option Nat) (st : AppState) (h : capInv st) :
    capInv (recordingEndedHandler w st) := by
  intro hp
  simp only [recordingEndedHandler, clear_isPaused, setCaptureState_eq] at hp
  exact absurd hp (by simp)

/-! ## C10: the capture-flag invariant -/

/-- C10: `isPaused` is true only while `isRecording` is true:
`setCaptureState` (the only writer of the two flags) establishes the
invariant unconditionally, the initial state satisfies it, and every
event-handler operation of the controller preserves it. -/
theorem c10_paused_only_while_recording :
    (∀ r p st, capInv (setCaptureState r p st)) ∧
    capInv initialAppState ∧
    (∀ st e, capInv st → capInv (handleEvent st e).1) := by
  refine ⟨capInv_setCaptureState, ?_, ?_⟩
  · intro hp
    exact absurd hp (by decide)
  · intro st e h
    cases e with
    | meetingDetected w p => exact capInv_detect w p st h
    | meetingUpdated w u env => exact capInv_update w u env st h
    | confirmRecording env => exact capInv_confirm st env h
    | declineRecording => exact capInv_decline st h
    | trayStart env => exact capInv_withAuth st env h
    | trayStop es => exact capInv_trayStop st es h
    | popupEndRecording es => exact capInv_popupEnd st es h
    | trayTogglePause es =>
      simp only [handleEvent]
      split
      · exact capInv_resume st es h
      · exact capInv_pause st es h
    | sdkStateChange c => exact capInv_sdk c st h
    | recordingEnded w => exact capInv_recEnded w st h

theorem c10_paused_only_while_recording_witness :
    capInv (setCaptureState true true ⟨false, false, false, false, none, ∅⟩) ∧
    capInv (handleEvent
      (⟨true, true, true, true, some (freshMeetingInfo 3), ∅⟩ : AppState)
      .declineRecording).1 :=
  ⟨c10_paused_only_while_recording.1 true true ⟨false, false, false, false, none, ∅⟩,
   c10_paused_only_while_recording.2.2
      ⟨true, true, true, true, some (freshMeetingInfo 3), ∅⟩ .declineRecording
      (by intro hp; rfl)⟩

/-! ## C8: decline suppression until genuine meeting end -/

/-- The only events that remove entries from the suppression set: a
genuine `idle` state change and `recording-ended`. -/
def clearsSuppression : Ev → Bool
  | .sdkStateChange c => c == "idle"
  | .recordingEnded _ => true
  | _ => false

/-- C8: (a) while `w` is suppressed, a `meeting-detected` for `w` is a
complete no-op — no consent prompt, no session; (b) every event other
than an `idle` state change or `recording-ended` keeps `w` suppressed;
(c) a genuine `idle` while the current session is `w` (not locally
paused), or a `recording-ended` for `w`, removes `w` from the suppression
set; (d) once `w` is not suppressed, a `meeting-detected` for `w` (not
slack, not recording) opens the consent popup over a fresh session. -/
theorem c8_suppression_until_meeting_end :
    (∀ st w p, w ∈ st.suppressedMeetingWindowIds →
      handleEvent st (.meetingDetected w p) = (st, [])) ∧
    (∀ st e w, clearsSuppression e = false → w ∈ st.suppressedMeetingWindowIds →
      w ∈ (handleEvent st e).1.suppressedMeetingWindowIds) ∧
    (∀ st info, st.currentMeetingInfo = some info → st.isPaused = false →
      info.windowId ≠ 0 →
      info.windowId ∉
        (handleEvent st (.sdkStateChange "idle")).1.suppressedMeetingWindowIds) ∧
    (∀ st w, w ≠ 0 →
      w ∉ (handleEvent st (.recordingEnded (some w))).1.suppressedMeetingWindowIds) ∧
    (∀ st w p, w ∉ st.suppressedMeetingWindowIds → p ≠ "slack" →
      st.isRecording = false →
      (handleEvent st (.meetingDetected w p)).2 = [.showPopup] ∧
      (handleEvent st (.meetingDetected w p)).1.currentMeetingInfo =
        some (freshMeetingInfo w)) := by
  refine ⟨?_, ?_, ?_, ?_, ?_⟩
  · intro st w p hmem
    simp [handleEvent, meetingDetectedHandler, hmem]
  · intro st e w hcl hmem
    cases e with
    | meetingDetected w2 p =>
      show w ∈ (meetingDetectedHandler w2 p st).1.suppressedMeetingWindowIds
      rw [detect_supp]
      exact hmem
    | meetingUpdated w2 u env =>
      show w ∈ (meetingUpdatedHandler w2 u env st).1.suppressedMeetingWindowIds
      rw [update_supp]
      exact hmem
    | confirmRecording env =>
      show w ∈ (confirmRecordingHandler st env).st.suppressedMeetingWindowIds
      rw [confirm_supp]
      exact hmem
    | declineRecording =>
      exact suppress_mem_mono _ st w hmem
    | trayStart env =>
      show w ∈ (startMeetingRecordingWithAuth st env).st.suppressedMeetingWindowIds
      rw [withAuth_supp]
      exact hmem
    | trayStop es =>
      show w ∈ (stopMeetingRecording
        (suppressMeetingPopupForWindow (st.currentMeetingInfo.map (·.windowId)) st)
        es).st.suppressedMeetingWindowIds
      rw [stop_supp]
      exact suppress_mem_mono _ st w hmem
    | popupEndRecording es =>
      show w ∈ (popupEndRecordingHandler st es).1.suppressedMeetingWindowIds
      unfold popupEndRecordingHandler
      split
      · exact hmem
      · show w ∈ (stopMeetingRecording
          (suppressMeetingPopupForWindow (st.currentMeetingInfo.map (·.windowId)) st)
          es).st.suppressedMeetingWindowIds
        rw [stop_supp]
        exact suppress_mem_mono _ st w hmem
    | trayTogglePause es =>
      simp only [handleEvent]
      split
      · show w ∈ (resumeMeetingRecording st es).1.suppressedMeetingWindowIds
        rw [resume_supp]
        exact hmem
      · show w ∈ (pauseMeetingRecording st es).1.suppressedMeetingWindowIds
        rw [pause_supp]
        exact hmem
    | sdkStateChange c =>
      show w ∈ (sdkStateChangeHandler c st).suppressedMeetingWindowIds
      have hne : ¬ c = "idle" := by
        intro hc
        rw [hc] at hcl
        simp [clearsSuppression] at hcl
      unfold sdkStateChangeHandler
      split_ifs with h1 h2
      · rw [setCaptureState_eq]; exact hmem
      · exact hmem
      · exact hmem
    | recordingEnded w2 =>
      exact absurd hcl (by simp [clearsSuppression])
  · intro st info hm hp hwz
    simp only [handleEvent]
    unfold sdkStateChangeHandler
    rw [if_neg (by decide : ¬("idle" : String) = "recording")]
    rw [if_pos (rfl : ("idle" : String) = "idle")]
    rw [if_neg (by simp [hp] : ¬ st.isPaused = true)]
    show info.windowId ∉ (clearMeetingPopupSuppression
        ((setCaptureState false false st).currentMeetingInfo.map (·.windowId))
        (setCaptureState false false st)).suppressedMeetingWindowIds
    have h1 : (setCaptureState false false st).currentMeetingInfo = some info := by
      rw [setCaptureState_eq]; exact hm
    rw [h1]
    exact clear_not_mem info.windowId _ hwz
  · intro st w hwz
    simp only [handleEvent]
    unfold recordingEndedHandler
    dsimp only
    rw [if_pos hwz]
    exact clear_not_mem w _ hwz
  · intro st w p hns hp hr
    constructor
    · simp [handleEvent, meetingDetectedHandler, hns, hp, hr]
    · simp [handleEvent, meetingDetectedHandler, hns, hp, hr]

theorem c8_suppression_until_meeting_end_witness :
    (handleEvent (⟨false, false, false, false, some (freshMeetingInfo 3), {3}⟩ : AppState)
      (.meetingDetected 3 "zoom") =
      ((⟨false, false, false, false, some (freshMeetingInfo 3), {3}⟩ : AppState), [])) ∧
    (3 ∈ (handleEvent
        (⟨false, false, false, false, some (freshMeetingInfo 3), {3}⟩ : AppState)
        .declineRecording).1.suppressedMeetingWindowIds) ∧
    (3 ∉ (handleEvent
        (⟨false, false, false, false, some (freshMeetingInfo 3), {3}⟩ : AppState)
        (.sdkStateChange "idle")).1.suppressedMeetingWindowIds) ∧
    (3 ∉ (handleEvent
        (⟨false, false, false, false, some (freshMeetingInfo 3), {3}⟩ : AppState)
        (.recordingEnded (some 3))).1.suppressedMeetingWindowIds) ∧
    ((handleEvent (⟨false, false, false, false, some (freshMeetingInfo 3), ∅⟩ : AppState)
        (.meetingDetected 3 "zoom")).2 = [.showPopup] ∧
      (handleEvent (⟨false, false, false, false, some (freshMeetingInfo 3), ∅⟩ : AppState)
        (.meetingDetected 3 "zoom")).1.currentMeetingInfo = some (freshMeetingInfo 3)) :=
  ⟨c8_suppression_until_meeting_end.1
      ⟨false, false, false, false, some (freshMeetingInfo 3), {3}⟩ 3 "zoom" (by decide),
   c8_suppression_until_meeting_end.2.1
      ⟨false, false, false, false, some (freshMeetingInfo 3), {3}⟩ .declineRecording 3
      (by decide) (by decide),
   c8_suppression_until_meeting_end.2.2.1
      ⟨false, false, false, false, some (freshMeetingInfo 3), {3}⟩ (freshMeetingInfo 3)
      rfl rfl (by decide),
   c8_suppression_until_meeting_end.2.2.2.1
      ⟨false, false, false, false, some (freshMeetingInfo 3), {3}⟩ 3 (by decide),
   c8_suppression_until_meeting_end.2.2.2.2
      ⟨false, false, false, false, some (freshMeetingInfo 3), ∅⟩ 3 "zoom"
      (by decide) (by decide) rfl⟩

/-! ## C1: the `recordingStarted` latch under concurrent start triggers -/

/-- Resume answers that represent successful collaborator calls (a
successful fetch must carry a parseable token). -/
def goodOutcome : ResumeOutcome → Bool
  | .authOk _ => true
  | .fetchOk d => (extractUploadToken d).isSome
  | .regDone _ => true
  | .startOk => true
  | _ => false

/-- The schedules of the amended C1: any number of start triggers and
task resumptions with successful outcomes, plus `meeting-updated` events —
but no decline/stop, no further detection, no termination and no failing
collaborator call (each of those resets the `recordingStarted` latch or
replaces the session). -/
def allowedC1 : CAction → Bool
  | .spawnTrigger _ => true
  | .resume _ o => goodOutcome o
  | .update _ _ _ => true
  | _ => false

/-- The inductive invariant behind the at-most-one-start property: the
session exists, every trigger suspended inside the registrar has the
upload token already stored, the engine-start counter is zero while the
latch is clear, and the counter never exceeds one. -/
def InvC1 (s : CState) : Prop :=
  (∃ info, s.app.currentMeetingInfo = some info ∧
    (∀ t ∈ s.tasks, t.phase = Phase.regWait → info.uploadToken.isSome = true)) ∧
  (s.app.recordingStarted = false → s.startCalls = 0) ∧
  s.startCalls ≤ 1

theorem invC1_erase (s : CState) (t : CTask) (h : InvC1 s) :
    InvC1 { s with tasks := s.tasks.erase t } := by
  obtain ⟨⟨info, hm, htasks⟩, hl, hle⟩ := h
  exact ⟨⟨info, hm, fun t2 ht2 hph => htasks t2 (List.mem_of_mem_erase ht2) hph⟩, hl, hle⟩

theorem register_recordingStarted (st : AppState) (env : RegisterEnv) :
    (registerCurrentMeetingUrlIfNeeded st env).1.recordingStarted = st.recordingStarted := by
  rcases register_cases st env with h | ⟨_, _, _, _, _, _, _, _, _, h⟩ <;> rw [h]

theorem register_meeting_uploadToken (st : AppState) (env : RegisterEnv)
    (info : MeetingInfo) (hm : st.currentMeetingInfo = some info) :
    ∃ info2, (registerCurrentMeetingUrlIfNeeded st env).1.currentMeetingInfo = some info2 ∧
      info2.uploadToken = info.uploadToken := by
  rcases register_cases st env with h | ⟨info1, u, rid, sid, hm1, hu, hrid, hsid, htok, h⟩
  · exact ⟨info, by rw [h]; exact hm, rfl⟩
  · rw [hm] at hm1
    cases Option.some.inj hm1
    refine ⟨{ info with
        lastRegisterAttemptUrl := some u
        lastRegisterAttemptAt := env.now
        lastRegisteredMeetingUrl :=
          if env.apiOk then some u else info.lastRegisteredMeetingUrl }, ?_, rfl⟩
    rw [h]

theorem update_recordingStarted (w : Nat) (u : Option String) (env : RegisterEnv)
    (st : AppState) :
    (meetingUpdatedHandler w u env st).1.recordingStarted = st.recordingStarted := by
  unfold meetingUpdatedHandler
  split
  · rfl
  · split
    · rfl
    · split
      · rfl
      · split
        · rfl
        · dsimp only
          split
          · rfl
          · exact register_recordingStarted _ env

theorem update_meeting_uploadToken (w : Nat) (u : Option String) (env : RegisterEnv)
    (st : AppState) (info : MeetingInfo) (hm : st.currentMeetingInfo = some info) :
    ∃ info2, (meetingUpdatedHandler w u env st).1.currentMeetingInfo = some info2 ∧
      info2.uploadToken = info.uploadToken := by
  unfold meetingUpdatedHandler
  split
  · exact ⟨info, hm, rfl⟩
  · rename_i u2
    split
    · exact ⟨info, hm, rfl⟩
    · rename_i info1 heq
      rw [hm] at heq
      cases Option.some.inj heq
      split
      · exact ⟨info, hm, rfl⟩
      · split
        · exact ⟨info, hm, rfl⟩
        · dsimp only
          split
          · exact ⟨{ info with meetingUrl := some u2 }, rfl, rfl⟩
          · obtain ⟨info2, h2, ht2⟩ := register_meeting_uploadToken
              { st with currentMeetingInfo := some { info with meetingUrl := some u2 } }
              env { info with meetingUrl := some u2 } rfl
            exact ⟨info2, h2, ht2⟩

theorem invC1_cStartSegment (b : Bool) (s : CState) (info : MeetingInfo)
    (hm : s.app.currentMeetingInfo = some info)
    (htok : info.uploadToken.isSome = true)
    (htasks : ∀ t ∈ s.tasks, t.phase = Phase.regWait → info.uploadToken.isSome = true)
    (hl : s.app.recordingStarted = false → s.startCalls = 0)
    (hle : s.startCalls ≤ 1) :
    InvC1 (cStartSegment b s) := by
  unfold cStartSegment
  simp only [hm]
  by_cases hrs : s.app.recordingStarted = true
  · rw [if_pos hrs]
    exact ⟨⟨info, hm, htasks⟩, hl, hle⟩
  · rw [if_neg hrs]
    have hrs2 : s.app.recordingStarted = false := by
      revert hrs; cases s.app.recordingStarted <;> simp
    rcases ht : info.uploadToken with _ | tok
    · rw [ht] at htok
      exact absurd htok (by decide)
    · simp only [ht]
      refine ⟨⟨info, rfl, ?_⟩, ?_, ?_⟩
      · intro t2 ht2 hph
        rcases List.mem_cons.mp ht2 with hh | hh
        · rw [hh] at hph
          exact Phase.noConfusion hph
        · exact htasks t2 hh hph
      · intro hfalse
        exact Bool.noConfusion hfalse
      · show s.startCalls + 1 ≤ 1
        have h0 := hl hrs2
        omega

theorem invC1_cAfterToken (b : Bool) (s : CState) (info : MeetingInfo)
    (hm : s.app.currentMeetingInfo = some info)
    (htok : info.uploadToken.isSome = true)
    (htasks : ∀ t ∈ s.tasks, t.phase = Phase.regWait → info.uploadToken.isSome = true)
    (hl : s.app.recordingStarted = false → s.startCalls = 0)
    (hle : s.startCalls ≤ 1) :
    InvC1 (cAfterToken b s) := by
  unfold cAfterToken
  simp only [hm]
  rcases hu : info.meetingUrl with _ | u
  · simp only [hu]
    exact invC1_cStartSegment b s info hm htok htasks hl hle
  · simp only [hu]
    refine ⟨⟨info, hm, ?_⟩, hl, hle⟩
    intro t2 ht2 hph
    rcases List.mem_cons.mp ht2 with hh | hh
    · exact htok
    · exact htasks t2 hh hph

theorem invC1_cspawn (b : Bool) (s : CState) (h : InvC1 s) : InvC1 (cspawn b s) := by
  obtain ⟨⟨info, hm, htasks⟩, hl, hle⟩ := h
  unfold cspawn
  simp only [hm]
  have hcons : ∀ t2 ∈ (⟨Phase.authWait, b⟩ : CTask) :: s.tasks,
      t2.phase = Phase.regWait → info.uploadToken.isSome = true := by
    intro t2 ht2 hph
    rcases List.mem_cons.mp ht2 with hh | hh
    · rw [hh] at hph
      exact Phase.noConfusion hph
    · exact htasks t2 hh hph
  cases b
  · rw [if_neg (by decide : ¬false = true)]
    by_cases hrec : s.app.isRecording = true
    · rw [if_pos hrec]
      exact ⟨⟨info, hm, htasks⟩, hl, hle⟩
    · rw [if_neg hrec]
      exact ⟨⟨info, rfl, hcons⟩, hl, hle⟩
  · rw [if_pos (rfl : true = true)]
    by_cases hrec : s.app.isRecording = true
    · rw [if_pos hrec]
      exact ⟨⟨info, rfl, htasks⟩, hl, hle⟩
    · rw [if_neg hrec]
      exact ⟨⟨info, rfl, hcons⟩, hl, hle⟩

theorem invC1_cresume (s : CState) (t : CTask) (o : ResumeOutcome)
    (hgood : goodOutcome o = true) (hmemt : t ∈ s.tasks) (h : InvC1 s) :
    InvC1 (cresume { s with tasks := s.tasks.erase t } t o) := by
  have hs2 : InvC1 { s with tasks := s.tasks.erase t } := invC1_erase s t h
  obtain ⟨⟨info, hm, htasks⟩, hl, hle⟩ := h
  have herase : ∀ t2 ∈ s.tasks.erase t, t2.phase = Phase.regWait →
      info.uploadToken.isSome = true :=
    fun t2 ht2 hph => htasks t2 (List.mem_of_mem_erase ht2) hph
  rcases t with ⟨ph, tb⟩
  cases ph with
  | authWait =>
    cases o with
    | authOk tok =>
      simp only [cresume]
      simp only [hm]
      rcases ht : info.uploadToken with _ | tok2
      · simp only [ht]
        refine ⟨⟨info, hm, ?_⟩, hl, hle⟩
        intro t2 ht2 hph
        rcases List.mem_cons.mp ht2 with hh | hh
        · rw [hh] at hph
          exact Phase.noConfusion hph
        · exact herase t2 hh hph
      · simp only [ht]
        exact invC1_cAfterToken tb _ info hm (by rw [ht]; rfl) herase hl hle
    | fetchOk d => exact hs2
    | regDone env => exact hs2
    | startOk => exact hs2
    | authNone => exact absurd hgood (by decide)
    | authThrow => exact absurd hgood (by decide)
    | fetchErr => exact absurd hgood (by decide)
    | startFail => exact absurd hgood (by decide)
  | fetchWait =>
    cases o with
    | fetchOk d =>
      simp only [cresume]
      simp only [hm]
      rcases he : extractUploadToken d with _ | tok
      · simp only [goodOutcome] at hgood
        rw [he] at hgood
        exact Bool.noConfusion hgood
      · simp only [he]
        refine invC1_cAfterToken tb _
          { info with
              uploadToken := some tok
              recordingId := extractRecordingId d
              sdkUploadId := extractSdkUploadId d } rfl rfl ?_ hl hle
        intro t2 ht2 hph
        rfl
    | authOk tok => exact hs2
    | regDone env => exact hs2
    | startOk => exact hs2
    | authNone => exact absurd hgood (by decide)
    | authThrow => exact absurd hgood (by decide)
    | fetchErr => exact absurd hgood (by decide)
    | startFail => exact absurd hgood (by decide)
  | regWait =>
    cases o with
    | regDone env =>
      simp only [cresume]
      have htok0 : info.uploadToken.isSome = true :=
        htasks ⟨Phase.regWait, tb⟩ hmemt rfl
      obtain ⟨info2, hm2, ht2⟩ := register_meeting_uploadToken s.app env info hm
      refine invC1_cStartSegment tb _ info2 hm2 (by rw [ht2]; exact htok0) ?_ ?_ hle
      · intro t2 hh hph
        rw [ht2]
        exact herase t2 hh hph
      · intro hf
        exact hl (by rw [← register_recordingStarted s.app env]; exact hf)
    | authOk tok => exact hs2
    | fetchOk d => exact hs2
    | startOk => exact hs2
    | authNone => exact absurd hgood (by decide)
    | authThrow => exact absurd hgood (by decide)
    | fetchErr => exact absurd hgood (by decide)
    | startFail => exact absurd hgood (by decide)
  | startWait =>
    cases o with
    | startOk =>
      simp only [cresume]
      refine ⟨⟨info, ?_, herase⟩, ?_, hle⟩
      · rw [setCaptureState_eq]
        exact hm
      · intro hf
        refine hl ?_
        rw [setCaptureState_eq] at hf
        exact hf
    | authOk tok => exact hs2
    | fetchOk d => exact hs2
    | regDone env => exact hs2
    | authNone => exact absurd hgood (by decide)
    | authThrow => exact absurd hgood (by decide)
    | fetchErr => exact absurd hgood (by decide)
    | startFail => exact absurd hgood (by decide)

theorem invC1_step (s : CState) (a : CAction) (ha : allowedC1 a = true) (h : InvC1 s) :
    InvC1 (cstep s a) := by
  cases a with
  | spawnTrigger b => exact invC1_cspawn b s h
  | resume t o =>
    simp only [cstep]
    split
    · rename_i hc
      exact invC1_cresume s t o (by simpa [allowedC1] using ha) hc.1 h
    · exact h
  | update w u env =>
    obtain ⟨⟨info, hm, htasks⟩, hl, hle⟩ := h
    obtain ⟨info2, hm2, ht2⟩ := update_meeting_uploadToken w u env s.app info hm
    refine ⟨⟨info2, hm2, ?_⟩, ?_, hle⟩
    · intro t2 hh hph
      rw [ht2]
      exact htasks t2 hh hph
    · intro hf
      exact hl (by rw [← update_recordingStarted w u env s.app]; exact hf)
  | decline => simp [allowedC1] at ha
  | detect w p => simp [allowedC1] at ha
  | sdkIdle => simp [allowedC1] at ha
  | recEnded w => simp [allowedC1] at ha

theorem invC1_run (acts : List CAction) :
    ∀ s, InvC1 s → (∀ a ∈ acts, allowedC1 a = true) → InvC1 (crun s acts) := by
  induction acts with
  | nil => intro s h _; exact h
  | cons a rest ih =>
    intro s h hall
    exact ih (cstep s a) (invC1_step s a (hall a (List.mem_cons_self a rest)) h)
      (fun a2 ha2 => hall a2 (List.mem_cons_of_mem a ha2))

theorem invC1_cInit (w : Nat) : InvC1 (cInit w) := by
  refine ⟨⟨freshMeetingInfo w, ?_, ?_⟩, fun _ => rfl, Nat.zero_le 1⟩
  · show (meetingDetectedHandler w "zoom" initialAppState).1.currentMeetingInfo =
      some (freshMeetingInfo w)
    unfold meetingDetectedHandler
    rw [if_neg (by simp [initialAppState])]
    rw [if_neg (by decide : ¬("zoom" : String) = "slack")]
    rw [if_neg (by decide : ¬initialAppState.isRecording = true)]
  · intro t2 ht2 hph
    exact absurd ht2 (List.not_mem_nil t2)

/-- C1 (counterexample): the claim as stated — quantifying over sequences
that include decline events — is false: a decline processed while a start
is in flight resets the `recordingStarted` latch *without* terminating the
session (C6), so a subsequent tray trigger issues a second engine
`startRecording` call for the same session. The schedule: popup confirm
latches and awaits the engine; the user's decline resets the latch; a tray
start then latches again — two `startRecording` calls. -/
theorem c1_counterexample_decline_reenables_start :
    (crun (cInit 7)
      [.spawnTrigger true,
       .resume ⟨.authWait, true⟩ (.authOk "t"),
       .resume ⟨.fetchWait, true⟩ (.fetchOk ⟨.absent, some "tok", none, none⟩),
       .decline,
       .spawnTrigger false,
       .resume ⟨.authWait, false⟩ (.authOk "t")]).startCalls = 2 := by decide

/-- C1 (amended): for one session (a single `meeting-detected`), over
every interleaving of any number of start triggers (popup confirm and
tray), task resumptions with successful collaborator outcomes, and
`meeting-updated` events — but no decline/stop, no re-detection and no
termination — at most one engine `startRecording` call is issued: the
`recordingStarted` latch is checked and set synchronously before the
awaited engine call. (The latch is reset not only on start failure and
session termination, as the claim says, but also by decline/stop, by a
new detection, and by any failing trigger's catch block; each of those
re-enables a further start call.) -/
theorem c1_amended_latch_single_start (w : Nat) (acts : List CAction)
    (hallowed : ∀ a ∈ acts, allowedC1 a = true) :
    (crun (cInit w) acts).startCalls ≤ 1 :=
  (invC1_run acts (cInit w) (invC1_cInit w) hallowed).2.2

theorem c1_amended_latch_single_start_witness :
    (∀ a ∈ ([.spawnTrigger true,
       .resume ⟨.authWait, true⟩ (.authOk "t"),
       .resume ⟨.fetchWait, true⟩ (.fetchOk ⟨.absent, some "tok", none, none⟩),
       .resume ⟨.startWait, true⟩ .startOk,
       .spawnTrigger false,
       .resume ⟨.authWait, false⟩ (.authOk "t")] : List CAction),
      allowedC1 a = true) ∧
    (crun (cInit 7)
      [.spawnTrigger true,
       .resume ⟨.authWait, true⟩ (.authOk "t"),
       .resume ⟨.fetchWait, true⟩ (.fetchOk ⟨.absent, some "tok", none, none⟩),
       .resume ⟨.startWait, true⟩ .startOk,
       .spawnTrigger false,
       .resume ⟨.authWait, false⟩ (.authOk "t")]).startCalls ≤ 1 :=
  ⟨by decide,
   c1_amended_latch_single_start 7
      [.spawnTrigger true,
       .resume ⟨.authWait, true⟩ (.authOk "t"),
       .resume ⟨.fetchWait, true⟩ (.fetchOk ⟨.absent, some "tok", none, none⟩),
       .resume ⟨.startWait, true⟩ .startOk,
       .spawnTrigger false,
       .resume ⟨.authWait, false⟩ (.authOk "t")] (by decide)⟩

end Gia
